import Mathlib

/-!
Verification development for the GeneGPT2 pipeline core: a shallow embedding of
`app/session_store.py`, `app/intent_classifier.py`, `app/variant_resolver.py`,
`app/question_parser.py`, `app/gene_resolver.py`, `app/utils/gene_utils.py` and
`app/pipeline.py`, together with theorems about the embedded code.

Conventions of the embedding:
* Python strings are Lean `String`; Python `None`-able strings are `Option String`,
  with Python truthiness (`if s:`) modelled explicitly (empty string is falsy).
* Python dicts with a fixed key set are Lean structures; a partial-update dict is a
  structure of `Option`-wrapped fields (`none` = key absent).
* Python sets of strings are Lean `List String` kept duplicate-free by the
  insertion operations (only membership and emptiness are reasoned about).
* Evidence-source HTTP clients are external collaborators: they are modelled as
  oracle functions collected in a `Clients` record.  A call that may raise is an
  `Except String` value (`.error e` = the Python call raised `e`).
* Machine-level concerns that cannot affect the verified claims (SQLite storage,
  TTL expiry timestamps, debug printing, the LLM explainer, presentation-only
  answer fields) are elided; every elision is noted at the definition it touches.
-/

/-! ## Generic string helpers (ASCII semantics of the Python string operations) -/

/-- Python `str.lower()` (ASCII). -/
def lowerStr (s : String) : String := String.mk (s.data.map Char.toLower)

/-- Python `str.upper()` (ASCII). -/
def upperStr (s : String) : String := String.mk (s.data.map Char.toUpper)

/-- Does `hay` start with `needle` (as char lists)? -/
def charsStartWith : List Char → List Char → Bool
  | _, [] => true
  | [], _ :: _ => false
  | c :: cs, d :: ds => c == d && charsStartWith cs ds

/-- Does `needle` occur as a contiguous substring of `hay`?  (Python `needle in hay`.) -/
def charsContain : List Char → List Char → Bool
  | [], needle => needle.isEmpty
  | c :: t, needle => charsStartWith (c :: t) needle || charsContain t needle

/-- Python substring test `needle in hay`. -/
def containsSub (hay needle : String) : Bool := charsContain hay.data needle.data

/-- A regex word character (`\w` for ASCII input): letter, digit or underscore. -/
def isWordChar (c : Char) : Bool := c.isAlphanum || c == '_'

/-- `needle` matches at the head of `hay` and the character right after the match
(if any) is a non-word character — i.e. a trailing `\b` holds, for needles whose
last character is a word character. -/
def matchesWordAt : List Char → List Char → Bool
  | [], [] => true
  | c :: _, [] => !isWordChar c
  | [], _ :: _ => false
  | c :: cs, d :: ds => c == d && matchesWordAt cs ds

/-- Scan `hay` for a whole-word occurrence of `needle`; `bdy` says whether the
current position is preceded by a non-word character (or the string start). -/
def containsWordFrom : Bool → List Char → List Char → Bool
  | bdy, [], needle => bdy && matchesWordAt [] needle
  | bdy, c :: t, needle =>
    (bdy && matchesWordAt (c :: t) needle) || containsWordFrom (!isWordChar c) t needle

/-- Python `re.search(r"\b" + re.escape(needle) + r"\b", hay)` for needles that
begin and end with word characters (all needles used by the code do). -/
def containsWord (hay needle : String) : Bool :=
  containsWordFrom true hay.data needle.data

/-- Python truthiness of an optional string: `None` and `""` are falsy. -/
def optTruthy : Option String → Bool
  | none => false
  | some s => s != ""

/-- Python `a or b` for optional strings: `a` if truthy, else `b`. -/
def orOptStr (a b : Option String) : Option String :=
  match a with
  | some s => if s = "" then b else some s
  | none => b

/-- First truthy value of a list of optional strings (an `if/elif` truthiness chain). -/
def firstTruthy : List (Option String) → Option String
  | [] => none
  | a :: rest =>
    match a with
    | some s => if s = "" then firstTruthy rest else some s
    | none => firstTruthy rest

/-- Maximal runs of characters satisfying `p` (accumulator holds the current run
reversed). -/
def runsByAux (p : Char → Bool) : List Char → List Char → List (List Char)
  | [], acc => if acc.isEmpty then [] else [acc.reverse]
  | c :: t, acc =>
    if p c then runsByAux p t (c :: acc)
    else if acc.isEmpty then runsByAux p t []
    else acc.reverse :: runsByAux p t []

/-- Maximal word-character runs of a string (the `\b`-delimited tokens). -/
def wordRuns (s : String) : List String := (runsByAux isWordChar s.data []).map String.mk

/-- Python `str.split()`: maximal non-whitespace runs. -/
def splitWs (s : String) : List String :=
  (runsByAux (fun c => !c.isWhitespace) s.data []).map String.mk

/-- Characters of the regex class `[A-Z0-9]`. -/
def isUpperAlnumChar (c : Char) : Bool :=
  ('A' ≤ c && c ≤ 'Z') || ('0' ≤ c && c ≤ '9')

/-- Python `t.isupper()` for tokens known to be alphanumeric: at least one letter
and no lowercase letter. -/
def pyIsUpper (t : String) : Bool :=
  t.data.any Char.isAlpha && t.data.all (fun c => !c.isLower)

/-- Python `str.strip()`: remove leading and trailing whitespace. -/
def pyStrip (s : String) : String :=
  String.mk (((s.data.dropWhile Char.isWhitespace).reverse.dropWhile Char.isWhitespace).reverse)

/-! ## Session / clinical-state store (`app/session_store.py`)

The SQLite table is elided: a session's stored snapshot is threaded explicitly.
`topics_discussed` (a Python set) is a duplicate-free list.  The store's
normalisation step that upgrades legacy bare-string `recent_facts` entries to
`{text, score}` dicts is elided by always representing items structurally. -/

/-- One scored entry of `recent_facts` / `user_concerns`. -/
structure ScoredItem where
  text : String
  score : Int
deriving DecidableEq, Repr

/-- The per-session clinical state (`SessionStore._create_default_state` keys). -/
structure ClinicalState where
  current_gene : Option String
  current_variant : Option String
  variant_classification : Option String
  test_context : Option String
  topics_discussed : List String
  user_emotion : Option String
  unresolved_questions : List String
  recent_facts : List ScoredItem
  user_concerns : List ScoredItem
deriving DecidableEq, Repr

/-- `SessionStore._create_default_state`. -/
def createDefaultState : ClinicalState :=
  { current_gene := none
    current_variant := none
    variant_classification := some "unknown"
    test_context := some "unknown"
    topics_discussed := []
    user_emotion := none
    unresolved_questions := []
    recent_facts := []
    user_concerns := [] }

/-- A partial-update dict passed to `SessionStore.update_clinical_state`.
An outer `none` means the key is absent from the dict; for the two decaying
lists, the code reads `updates.get(key, [])`, so absence and `[]` coincide. -/
structure StateUpdates where
  current_gene : Option (Option String) := none
  current_variant : Option (Option String) := none
  variant_classification : Option (Option String) := none
  test_context : Option (Option String) := none
  user_emotion : Option (Option String) := none
  topics_discussed : Option (List String) := none
  recent_facts : List String := []
  user_concerns : List String := []
  unresolved_questions : Option (List String) := none
deriving DecidableEq, Repr

/-- Last-write-wins merge of one scalar field (`if key in updates: state[key] = updates[key]`). -/
def applyScalar (old : Option String) (u : Option (Option String)) : Option String :=
  match u with
  | none => old
  | some v => v

/-- Set-insert used to model `set.update`. -/
def addTopic (acc : List String) (t : String) : List String :=
  if acc.contains t then acc else acc ++ [t]

/-- Set union of the stored topic set with the incoming topics. -/
def topicsUnion (old new : List String) : List String := new.foldl addTopic old

/-- Decay pass of `update_clinical_state`: decrement every score, drop items whose
score falls to 0 or below. -/
def decayList (l : List ScoredItem) : List ScoredItem :=
  (l.map (fun it => ⟨it.text, it.score - 1⟩)).filter (fun it => it.score > 0)

/-- Reset the score of the first case-insensitively matching item to 5 (the
`for existing in decayed_list: ... break` loop); `none` if no item matches. -/
def resetFirstMatch : List ScoredItem → String → Option (List ScoredItem)
  | [], _ => none
  | e :: rest, t =>
    if lowerStr e.text = lowerStr t then some (⟨e.text, 5⟩ :: rest)
    else (resetFirstMatch rest t).map (fun l => e :: l)

/-- Process one incoming text item: skip empty strings, reset a matching item to
score 5, else append a new item with score 5. -/
def mergeIncomingItem (acc : List ScoredItem) (t : String) : List ScoredItem :=
  if t = "" then acc
  else
    match resetFirstMatch acc t with
    | some l => l
    | none => acc ++ [⟨t, 5⟩]

/-- One update call's effect on a decaying list (`recent_facts` / `user_concerns`):
decay, then — if there are incoming items — either wipe the list when the
`"__CLEAR__"` sentinel is present or merge each incoming item. -/
def decayMergeList (old : List ScoredItem) (incoming : List String) : List ScoredItem :=
  let decayed := decayList old
  if incoming = [] then decayed
  else if incoming.contains "__CLEAR__" then []
  else incoming.foldl mergeIncomingItem decayed

/-- `SessionStore.update_clinical_state` merge logic (the SQLite write-back is the
returned state).  Note: the `"__CLEAR__"` sentinel is only consulted for
`recent_facts` / `user_concerns`; the `topics_discussed` branch performs a plain
set union. -/
def updateClinicalState (state : ClinicalState) (updates : StateUpdates) : ClinicalState :=
  { current_gene := applyScalar state.current_gene updates.current_gene
    current_variant := applyScalar state.current_variant updates.current_variant
    variant_classification := applyScalar state.variant_classification updates.variant_classification
    test_context := applyScalar state.test_context updates.test_context
    user_emotion := applyScalar state.user_emotion updates.user_emotion
    topics_discussed :=
      match updates.topics_discussed with
      | none => state.topics_discussed
      | some ts => topicsUnion state.topics_discussed ts
    recent_facts := decayMergeList state.recent_facts updates.recent_facts
    user_concerns := decayMergeList state.user_concerns updates.user_concerns
    unresolved_questions :=
      match updates.unresolved_questions with
      | none => state.unresolved_questions
      | some qs =>
        qs.foldl (fun acc q => if acc.contains q then acc else acc ++ [q])
          state.unresolved_questions }

/-- `SessionStore.get_clinical_state`: `row` is the stored snapshot (if any) and
`parseSnapshot` models `json.loads` (`none` = `JSONDecodeError`).  The lazy
TTL-expiry delete is elided (an expired session is simply `row = none`). -/
def getClinicalState (parseSnapshot : String → Option ClinicalState)
    (row : Option String) : ClinicalState :=
  match row with
  | none => createDefaultState
  | some data =>
    match parseSnapshot data with
    | some st => st
    | none => createDefaultState

/-! ## Intent classifier (`app/intent_classifier.py`) -/

/-- The emotional/situational context flags of `detect_question_context`. -/
structure ContextFlags where
  implies_new_diagnosis : Bool
  user_likely_anxious : Bool
  needs_next_steps : Bool
deriving DecidableEq, Repr

/-- The intent record returned by `classify_intent`.  `context` is `none` for the
replacement dict built by the pipeline's general-chat override (which omits the
`context` key). -/
structure Intent where
  intent : String
  raw_question : String
  gene_symbol : Option String
  variant : Option String
  context : Option ContextFlags
deriving DecidableEq, Repr

/-- Does any of the phrases occur as a substring of `q`? -/
def anySubstr (q : String) (ps : List String) : Bool := ps.any (fun p => containsSub q p)

def guidancePhrases : List String :=
  ["what should i do", "what do i do", "should i be worried", "am i in danger",
   "next steps", "who should i see", "advice"]

def riskWords : List String := ["mutation", "dangerous", "pathogenic"]

def diseaseWords : List String :=
  ["disease", "syndrome", "disorder", "condition", "symptom", "treatment", "cure",
   "cause", "cancer", "tumor", "diabetes", "infection", "illness", "pain"]

def newDiagnosisPhrases : List String :=
  ["was told", "been told", "just found out", "found out", "diagnosed with",
   "test showed", "test came back", "doctor said", "results showed", "report says"]

def anxiousPhrases : List String :=
  ["worried", "scared", "afraid", "concerned", "nervous", "serious", "dangerous",
   "bad", "harmful", "risk", "should i be worried", "am i in danger", "is this bad"]

def nextStepsPhrases : List String :=
  ["what should i do", "what do i do", "what now", "next steps", "what happens next",
   "who should i see", "where do i go", "advice", "help me", "guide me"]

/-- `detect_question_context`. -/
def detectQuestionContext (question : String) : ContextFlags :=
  let q := lowerStr question
  { implies_new_diagnosis := anySubstr q newDiagnosisPhrases
    user_likely_anxious := anySubstr q anxiousPhrases
    needs_next_steps := anySubstr q nextStepsPhrases }

/-- First match of `re.search(r"\b([A-Z0-9]{3,10})\b", question)`: the first
maximal word run consisting solely of `[A-Z0-9]` with length 3 to 10. -/
def firstGeneToken (question : String) : Option String :=
  (wordRuns question).find?
    (fun r => 3 ≤ r.length && r.length ≤ 10 && r.data.all isUpperAlnumChar)

/-- Maximal run of non-whitespace characters (regex `\S+`, greedy). -/
def takeNonSpace : List Char → List Char
  | [] => []
  | c :: t => if c.isWhitespace then [] else c :: takeNonSpace t

/-- First match of `re.search(r"(c\.\S+|p\.\S+)", question)`: leftmost `c.` or
`p.` followed by at least one non-whitespace character; the token is the maximal
non-whitespace run after the dot. -/
def findVariantToken : List Char → Option String
  | [] => none
  | c :: t =>
    if c == 'c' || c == 'p' then
      match t with
      | '.' :: rest =>
        let tail := takeNonSpace rest
        if tail.isEmpty then findVariantToken t
        else some (String.mk (c :: '.' :: tail))
      | _ => findVariantToken t
    else findVariantToken t

/-- `classify_intent`. -/
def classifyIntent (question : String) : Intent :=
  let q := lowerStr question
  let geneSymbol := firstGeneToken question
  let variant := findVariantToken question.data
  let intentLabel :=
    if anySubstr q guidancePhrases then "guidance_question"
    else if variant.isSome then "variant_question"
    else if anySubstr q riskWords then "risk_question"
    else if anySubstr q diseaseWords then "disease_question"
    else if geneSymbol.isSome then "gene_question"
    else "general_question"
  { intent := intentLabel
    raw_question := question
    gene_symbol := geneSymbol
    variant := variant
    context := some (detectQuestionContext question) }

/-! ## Variant resolver (`app/variant_resolver.py`)

The four regex patterns are embedded as character scanners.  The scanners follow
the regex engine's leftmost-match discipline; alternation backtracking is
reproduced where it can change the outcome (the op alternation of the cDNA
pattern and the digit/second-amino-group split of the protein pattern). -/

/-- Parsed variant descriptor (`ResolvedVariant` dataclass). -/
structure ResolvedVariant where
  gene_symbol : Option String
  rs_id : Option String
  hgvs_c : Option String
  hgvs_p : Option String
  raw : Option String
deriving DecidableEq, Repr

/-- Regex `\b` between a previous character and a next character (string edges
count as non-word). -/
def wordBoundary (prev next : Option Char) : Bool :=
  let pw := match prev with | some c => isWordChar c | none => false
  let nw := match next with | some c => isWordChar c | none => false
  pw != nw

def headChar? : List Char → Option Char
  | [] => none
  | c :: _ => some c

/-- Greedy character-class run: the matched run and the rest. -/
def takeWhileCls (p : Char → Bool) : List Char → List Char × List Char
  | [] => ([], [])
  | c :: t =>
    if p c then
      let r := takeWhileCls p t
      (c :: r.1, r.2)
    else ([], c :: t)

/-- Drop an exact literal from the head of the list, if present. -/
def dropExact : List Char → List Char → Option (List Char)
  | cs, [] => some cs
  | [], _ :: _ => none
  | c :: cs, d :: ds => if c == d then dropExact cs ds else none

/-- Characters of the class `[ACGTacgt]`. -/
def isBaseChar (c : Char) : Bool :=
  c == 'A' || c == 'C' || c == 'G' || c == 'T' ||
  c == 'a' || c == 'c' || c == 'g' || c == 't'

def takeDigits (l : List Char) : List Char := (takeWhileCls Char.isDigit l).1
def dropDigits (l : List Char) : List Char := (takeWhileCls Char.isDigit l).2

/-- `RSID_PATTERN = \brs(\d+)\b` (case-insensitive), scanned left to right;
`bdy` says whether a `\b` holds before the current position.  On a match the
normalised `rs<digits>` is returned (`_extract_rsid`). -/
def extractRsidFrom : Bool → List Char → Option String
  | _, [] => none
  | bdy, c :: t =>
    (if bdy && (c == 'r' || c == 'R') then
      match t with
      | s :: rest =>
        if s == 's' || s == 'S' then
          let ds := takeDigits rest
          if !ds.isEmpty && wordBoundary (some '0') (headChar? (dropDigits rest)) then
            some ("rs" ++ String.mk ds)
          else none
        else none
      | [] => none
    else none).orElse (fun _ => extractRsidFrom (!isWordChar c) t)

/-- `_extract_rsid`. -/
def extractRsid (text : String) : Option String := extractRsidFrom true text.data

/-- The tail of `HGVS_C_PATTERN` after `c.`:
`\s*[\d_]+[ACGTacgt]*\s*(del|dup|ins|delins|>)[ACGTacgt]*\b`.
The op alternation is tried in the regex's order, giving each alternative the
chance to complete the rest of the pattern (this reproduces the engine's
backtracking over the alternation).  Returns the characters matched after `c.`. -/
def hgvsCTail (rest : List Char) : Option (List Char) :=
  let ws1 := takeWhileCls Char.isWhitespace rest
  let digs := takeWhileCls (fun c => c.isDigit || c == '_') ws1.2
  if digs.1.isEmpty then none
  else
    let bases1 := takeWhileCls isBaseChar digs.2
    let ws2 := takeWhileCls Char.isWhitespace bases1.2
    let tryOp : List Char → Option (List Char) := fun op =>
      match dropExact ws2.2 op with
      | none => none
      | some r5 =>
        let bases2 := takeWhileCls isBaseChar r5
        let lastC := (op ++ bases2.1).getLast? 
        if wordBoundary lastC (headChar? bases2.2) then
          some (ws1.1 ++ digs.1 ++ bases1.1 ++ ws2.1 ++ op ++ bases2.1)
        else none
    (tryOp "del".data).orElse fun _ =>
    (tryOp "dup".data).orElse fun _ =>
    (tryOp "ins".data).orElse fun _ =>
    (tryOp "delins".data).orElse fun _ =>
    tryOp ">".data

/-- Scan for the leftmost `HGVS_C_PATTERN` match. -/
def extractHgvsCFrom : Bool → List Char → Option String
  | _, [] => none
  | bdy, c :: t =>
    (if bdy && c == 'c' then
      match t with
      | '.' :: rest => (hgvsCTail rest).map (fun tail => String.mk ('c' :: '.' :: tail))
      | _ => none
    else none).orElse (fun _ => extractHgvsCFrom (!isWordChar c) t)

/-- Python `s.replace(" ", "")`. -/
def removeSpaces (s : String) : String := String.mk (s.data.filter (fun c => c != ' '))

/-- Python `s.rstrip(".,;!?")`. -/
def rstripPunct (s : String) : String :=
  String.mk ((s.data.reverse.dropWhile
    (fun c => c == '.' || c == ',' || c == ';' || c == '!' || c == '?')).reverse)

/-- `_extract_hgvs_c`: leftmost match, spaces removed, trailing punctuation stripped. -/
def extractHgvsC (text : String) : Option String :=
  (extractHgvsCFrom true text.data).map (fun s => rstripPunct (removeSpaces s))

/-- One amino-acid group of `HGVS_P_PATTERN`: `([A-Z][a-z]{2}|\w)`, tried in the
regex's order.  Returns (matched chars, rest) candidates in trial order. -/
def aminoAlternatives (cs : List Char) : List (List Char × List Char) :=
  (match cs with
   | c1 :: c2 :: c3 :: rest =>
     if c1.isUpper && c2.isLower && c3.isLower then [([c1, c2, c3], rest)] else []
   | _ => []) ++
  (match cs with
   | c :: rest => if isWordChar c then [([c], rest)] else []
   | [] => [])

/-- Complete `\d+([A-Z][a-z]{2}|\w)\b` given the greedy digit run, trying the
regex's backtracking order: `\d+` keeps `k` digits for `k` from the full run
length down to 1, and for each split the two amino alternatives are tried. -/
def hgvsPAfterFirstAmino (cs : List Char) : Option (List Char) :=
  let ds := takeDigits cs
  let rest := dropDigits cs
  if ds.isEmpty then none
  else
    ((List.range ds.length).map (fun i => ds.length - i)).findSome? fun k =>
      let kept := ds.take k
      let given := ds.drop k
      (aminoAlternatives (given ++ rest)).findSome? fun alt =>
        if wordBoundary alt.1.getLast? (headChar? alt.2) then some (kept ++ alt.1)
        else none

/-- The tail of `HGVS_P_PATTERN` after `p.`: `\s*([A-Z][a-z]{2}|\w)\d+([A-Z][a-z]{2}|\w)\b`. -/
def hgvsPTail (rest : List Char) : Option (List Char) :=
  let ws1 := takeWhileCls Char.isWhitespace rest
  (aminoAlternatives ws1.2).findSome? fun alt1 =>
    (hgvsPAfterFirstAmino alt1.2).map fun tail => ws1.1 ++ alt1.1 ++ tail

/-- Scan for the leftmost `HGVS_P_PATTERN` match. -/
def extractHgvsPFrom : Bool → List Char → Option String
  | _, [] => none
  | bdy, c :: t =>
    (if bdy && c == 'p' then
      match t with
      | '.' :: rest => (hgvsPTail rest).map (fun tail => String.mk ('p' :: '.' :: tail))
      | _ => none
    else none).orElse (fun _ => extractHgvsPFrom (!isWordChar c) t)

/-- `_extract_hgvs_p`: leftmost match with spaces removed. -/
def extractHgvsP (text : String) : Option String :=
  (extractHgvsPFrom true text.data).map (fun s => removeSpaces s)

/-- `SIMPLE_PROT_PATTERN = \b[A-Z]\d+[A-Z]\b`, scanned left to right. -/
def extractSimpleProtFrom : Bool → List Char → Option String
  | _, [] => none
  | bdy, c :: t =>
    (if bdy && c.isUpper then
      let ds := takeDigits t
      if ds.isEmpty then none
      else
        match dropDigits t with
        | c2 :: rest2 =>
          if c2.isUpper && wordBoundary (some c2) (headChar? rest2) then
            some (String.mk (c :: ds ++ [c2]))
          else none
        | [] => none
    else none).orElse (fun _ => extractSimpleProtFrom (!isWordChar c) t)

/-- `_extract_simple_protein_change`. -/
def extractSimpleProt (text : String) : Option String := extractSimpleProtFrom true text.data

/-- `resolve_variant`. -/
def resolveVariant (userText : String) (geneSymbol : Option String) : Option ResolvedVariant :=
  if userText = "" then none
  else
    let text := pyStrip userText
    let rs := extractRsid text
    let hc := extractHgvsC text
    let hp0 := extractHgvsP text
    let hp :=
      match hp0 with
      | some p => some p
      | none =>
        match geneSymbol with
        | some g =>
          if g = "" then none
          else (extractSimpleProt text).map (fun sp => "p." ++ sp)
        | none => none
    if rs.isNone && hc.isNone && hp.isNone then none
    else some ⟨geneSymbol, rs, hc, hp, some text⟩

/-! ## Evidence layer (`app/pipeline.py` evidence builders)

Each evidence-source client (`get_omim_summary`, `get_ncbi_summary`,
`get_pubmed_summary`, `get_genereviews_summary`, `get_gnomad_summary`,
`get_clinvar_summary`) is an out-of-scope collaborator and is modelled as an
oracle in `Clients`; a call is an `Except String SrcBox` (`.error e` models the
Python call raising `e`).  The gene-ID lookups of `app/gene_resolver.py`
(`_fetch_ncbi_gene_id_for_symbol`, which catches its own exceptions, and the
`mim2gene.txt` file lookup) are total oracles.  A source box keeps the fields the
claims refer to (`used`, `reason`); source-specific payload fields (ids, links,
phenotype lists, papers) are elided. -/

/-- One evidence-source result record. -/
structure SrcBox where
  used : Bool
  reason : Option String
deriving DecidableEq, Repr

/-- An unused source record with a reason. -/
def unusedBox (r : String) : SrcBox := { used := false, reason := some r }

/-- The evidence bundle: the pipeline's evidence dict, as an association list in
the dict's key order. -/
def Evidence : Type := List (String × SrcBox)
deriving instance DecidableEq, Repr for Evidence

/-- The key list of a bundle. -/
def evidenceKeys (ev : Evidence) : List String := ev.map Prod.fst

/-- Look up one source box of a bundle. -/
def lookupBox (ev : Evidence) (k : String) : Option SrcBox :=
  ev.lookup k

/-- The external collaborators of the pipeline. -/
structure Clients where
  omim : String → Option String → Except String SrcBox
  ncbi : String → Option String → Except String SrcBox
  pubmed : String → Except String SrcBox
  genereviews : String → Except String SrcBox
  gnomad : String → Except String SrcBox
  clinvar : String → String → Except String SrcBox
  ncbiGeneIdLookup : String → Option String
  mim2gene : String → Option String

/-- The ClinVar stub of both the non-empty gene path and the empty-input gene
path (`"ClinVar not used for pure gene-level question."`). -/
def clinvarGeneStub : SrcBox := unusedBox "ClinVar not used for pure gene-level question."

/-- `build_evidence_for_gene_question`.  The collaborator calls are made in the
source's order (OMIM, NCBI, PubMed, GeneReviews, gnomAD); the bundle lists the
keys in the returned dict's order.  No call is wrapped: an exception propagates. -/
def buildEvidenceForGeneQuestion (cl : Clients) (geneSymbol : String)
    (omimId ncbiId : Option String) : Except String Evidence :=
  let g := pyStrip geneSymbol
  if g = "" then
    .ok [("omim", unusedBox "No gene symbol provided to build_evidence_for_gene_question."),
         ("ncbi", unusedBox "No gene symbol provided to build_evidence_for_gene_question."),
         ("pubmed", unusedBox "No gene symbol provided to build_evidence_for_gene_question."),
         ("clinvar", clinvarGeneStub),
         ("genereviews", unusedBox "No gene symbol provided."),
         ("gnomad", unusedBox "No gene symbol provided.")]
  else
    match cl.omim g omimId with
    | .error e => .error e
    | .ok omimBox =>
      match cl.ncbi g ncbiId with
      | .error e => .error e
      | .ok ncbiBox =>
        match cl.pubmed g with
        | .error e => .error e
        | .ok pubmedBox =>
          match cl.genereviews g with
          | .error e => .error e
          | .ok genereviewsBox =>
            match cl.gnomad g with
            | .error e => .error e
            | .ok gnomadBox =>
              .ok [("omim", omimBox), ("ncbi", ncbiBox), ("pubmed", pubmedBox),
                   ("clinvar", clinvarGeneStub), ("genereviews", genereviewsBox),
                   ("gnomad", gnomadBox)]

/-- `build_evidence_for_variant_question`.  Calls in the source's order (OMIM,
NCBI, PubMed, GeneReviews, gnomAD, ClinVar); keys in the dict's order.  As in the
source, no call is wrapped. -/
def buildEvidenceForVariantQuestion (cl : Clients) (geneSymbol variantToken : String)
    (omimId ncbiId : Option String) : Except String Evidence :=
  let g := pyStrip geneSymbol
  let v := pyStrip variantToken
  if g = "" || v = "" then
    .ok [("omim", unusedBox "Missing gene symbol or variant token for variant question."),
         ("ncbi", unusedBox "Missing gene symbol or variant token for variant question."),
         ("pubmed", unusedBox "Missing gene symbol or variant token for variant question."),
         ("clinvar", unusedBox "Missing gene symbol or variant token for variant question."),
         ("genereviews", unusedBox "Missing gene symbol."),
         ("gnomad", unusedBox "Missing gene symbol.")]
  else
    match cl.omim g omimId with
    | .error e => .error e
    | .ok omimBox =>
      match cl.ncbi g ncbiId with
      | .error e => .error e
      | .ok ncbiBox =>
        match cl.pubmed g with
        | .error e => .error e
        | .ok pubmedBox =>
          match cl.genereviews g with
          | .error e => .error e
          | .ok genereviewsBox =>
            match cl.gnomad g with
            | .error e => .error e
            | .ok gnomadBox =>
              match cl.clinvar g v with
              | .error e => .error e
              | .ok clinvarBox =>
                .ok [("omim", omimBox), ("ncbi", ncbiBox), ("pubmed", pubmedBox),
                     ("clinvar", clinvarBox), ("genereviews", genereviewsBox),
                     ("gnomad", gnomadBox)]

/-- The evidence bundle of `_build_broad_science_answer`: only the PubMed call is
made (with the full question text) and it alone is wrapped in `try/except`. -/
def buildBroadScienceEvidence (cl : Clients) (userQuestion : String) : Evidence :=
  let pubmedBox :=
    match cl.pubmed userQuestion with
    | .ok b => b
    | .error e => { used := false, reason := some ("Error calling PubMed for broad question: " ++ e) }
  [("omim", unusedBox "Broad educational question about multiple genes; no single OMIM entry used."),
   ("ncbi", unusedBox "Broad educational question about multiple genes; no single NCBI Gene entry used."),
   ("pubmed", pubmedBox),
   ("clinvar", unusedBox "Broad educational question; ClinVar focuses on specific variants."),
   ("genereviews", unusedBox "Broad educational question."),
   ("gnomad", unusedBox "Broad educational question.")]

/-- The `empty_evidence` dict of the pipeline's general-question early exit
(`run_genegpt_pipeline`, step 3.5): four keys only. -/
def generalChatEvidence : Evidence :=
  [("omim", unusedBox "General chat question – no gene lookup."),
   ("ncbi", unusedBox "General chat question – no gene lookup."),
   ("pubmed", unusedBox "General chat question – no gene lookup."),
   ("clinvar", unusedBox "General chat question – no gene/variant lookup.")]

/-! ## Gene extraction and resolution (`app/utils/gene_utils.py`,
`app/name_normalizer.py`, `app/gene_resolver.py`) -/

/-- `BLACKLIST` of `app/utils/gene_utils.py` (transcribed verbatim; Python set
literal duplicates are harmless in a membership list). -/
def geneUtilsBlacklist : List String :=
  ["GENE", "DNA", "RNA", "AND", "OR", "THE", "BUT", "FOR", "WITH", "THAT", "THIS",
   "WHAT", "WHO", "WHY", "HOW", "WHEN", "WHERE", "TELL", "ASK", "SAY", "GIVE", "TOLD", "SAID", "ASKED", "GIVEN",
   "SHOW", "LIST", "FIND", "SEARCH", "GET", "KNOW", "HAVE", "HAS", "HAD", "WAS",
   "IS", "ARE", "WERE", "BE", "BEEN", "CAN", "COULD", "SHOULD", "WOULD", "MAY",
   "MIGHT", "MUST", "DO", "DOES", "DID", "DONE", "USE", "USED", "USING", "ABOUT",
   "LIKE", "NEED", "WANT", "HELP", "PLEASE", "THANKS", "THANK", "HELLO", "HEY",
   "HI", "GOOD", "BAD", "NOT", "YES", "NO", "ANY", "ALL", "SOME", "MANY", "MOST",
   "MORE", "LESS", "ONE", "TWO", "THREE", "ZERO", "FIRST", "LAST", "NEXT", "PREV",
   "BACK", "FRONT", "TOP", "BOTTOM", "LEFT", "RIGHT", "SIDE", "END", "START",
   "STOP", "GO", "COME", "SEE", "LOOK", "WATCH", "WAIT", "TIME", "DAY", "YEAR",
   "MUTATION", "VARIANT", "DISEASE", "SYNDROME", "DISORDER", "CONDITION", "PROBLEM",
   "ISSUE", "RISK", "FACTOR", "CAUSE", "EFFECT", "RESULT", "TEST", "CHECK", "CASE",
   "REPORT", "STUDY", "PAPER", "ARTICLE", "JOURNAL", "BOOK", "PAGE", "WEB", "SITE",
   "LINK", "URL", "HTTP", "HTTPS", "COM", "ORG", "NET", "EDU", "GOV", "INFO", "BIZ",
   "NAME", "TERM", "WORD", "TEXT", "STRING", "LINE", "FILE", "DATA", "CODE", "APP",
   "TOOL", "USER", "CHAT", "BOT", "AI", "LLM", "GPT", "OPENAI", "API", "KEY", "ID",
   "DIABETES", "HEART", "CANCER", "TUMOR", "BRAIN", "LIVER", "KIDNEY", "LUNG",
   "BLOOD", "BONE", "SKIN", "EYE", "EAR", "NOSE", "MOUTH", "TOOTH", "TEETH",
   "HEAD", "NECK", "ARM", "LEG", "FOOT", "HAND", "FINGER", "TOE", "BODY",
   "SRC", "DST", "OBJ", "MSG", "REQ", "RES", "ERR", "LOG", "DEBUG", "WARN", "FAIL",
   "PASS", "TRUE", "FALSE", "NULL", "NONE", "NAN", "INF", "INT", "FLOAT", "STR",
   "BOOL", "LIST", "DICT", "SET", "TUPLE", "CLASS", "DEF", "FUNC", "VAR", "VAL",
   "LET", "CONST", "IF", "ELSE", "ELIF", "WHILE", "FOR", "TRY", "EXCEPT", "FINALLY",
   "RETURN", "YIELD", "BREAK", "CONTINUE", "IMPORT", "FROM", "AS", "IN", "IS", "NOT",
   "AND", "OR", "NOT", "XOR", "NAND", "NOR", "XNOR", "EQUALS", "EQUAL", "SAME",
   "DIFF", "HETERO", "HOMO", "ZYGOUS", "GENOTYPE", "PHENOTYPE", "ALLELE", "LOCUS",
   "CHROMOSOME", "PROTEIN", "ENZYME", "RECEPTOR", "PATHWAY", "CELL", "TISSUE", "ORGAN",
   "SYSTEM", "BODY", "BLOOD", "URINE", "SALIVA", "TEST", "SAMPLE", "PATIENT", "DOCTOR",
   "NURSE", "CLINIC", "HOSPITAL", "LAB", "CENTER", "GROUP", "TEAM", "FAMILY", "PARENT",
   "CHILD", "SON", "DAUGHTER", "BROTHER", "SISTER", "WIFE", "HUSBAND", "MOTHER", "FATHER",
   "AUNT", "UNCLE", "COUSIN", "NEPHEW", "NIECE", "GRAND", "GREAT", "STEP", "HALF", "INLAW",
   "FRIEND", "GUY", "GIRL", "MAN", "WOMAN", "BOY", "KID", "BABY", "ADULT", "SENIOR",
   "HUMAN", "PERSON", "PEOPLE", "SOMEONE", "ANYONE", "NOONE", "EVERYONE", "EVERYBODY",
   "NOBODY", "SOMEBODY", "ANYBODY", "THING", "SOMETHING", "ANYTHING", "NOTHING", "EVERYTHING",
   "IT", "HE", "SHE", "THEY", "THEM", "HIM", "HER", "US", "WE", "ME", "MY", "YOUR", "OUR",
   "THEIR", "HIS", "HERS", "ITS", "MINE", "YOURS", "THEIRS", "OURS", "MYSELF", "YOURSELF",
   "HIMSELF", "HERSELF", "ITSELF", "THEMSELVES", "OURSELVES", "YOURSELVES", "WHOSE", "WHOM",
   "WHICH", "THAT", "THESE", "THOSE", "THIS", "SUCH", "SAME", "OTHER", "ANOTHER", "EACH",
   "EVERY", "BOTH", "EITHER", "NEITHER", "OWN", "SELF", "VERY", "TOO", "ALSO", "EVEN",
   "JUST", "ONLY", "QUITE", "RATHER", "ALMOST", "NEARLY", "ALWAYS", "NEVER", "OFTEN",
   "OFTEN", "SOMETIMES", "SELDOM", "RARELY", "HARDLY", "SCARCELY", "BARELY", "EVER",
   "NOW", "THEN", "HERE", "THERE", "AWAY", "OUT", "IN", "UP", "DOWN", "OFF", "OVER",
   "UNDER", "AGAIN", "ONCE", "TWICE", "THRICE", "FIRSTLY", "SECONDLY", "THIRDLY"]

/-- `extract_gene_symbol` (`app/utils/gene_utils.py`): uppercase the text, find
all `\b[A-Z0-9]{3,10}\b` tokens, return the first one not in the blacklist. -/
def extractGeneSymbol (userQuestion : String) : Option String :=
  let textUpper := upperStr userQuestion
  let candidates := (wordRuns textUpper).filter
    (fun r => 3 ≤ r.length && r.length ≤ 10 && r.data.all isUpperAlnumChar)
  candidates.find? (fun t => !(geneUtilsBlacklist.contains t))

/-- `GENE_SYNONYMS` of `app/name_normalizer.py`. -/
def geneSynonyms : List (String × String) := [("T53", "TP53"), ("P53", "TP53"), ("HER2", "ERBB2")]

/-- `normalize_gene_name`. -/
def normalizeGeneName (userInput : String) : String :=
  if userInput = "" then userInput
  else
    let q := upperStr (pyStrip userInput)
    match geneSynonyms.lookup q with
    | some v => v
    | none => q

/-- `GENE_TO_OMIM_ID` static map of `app/gene_resolver.py`. -/
def geneToOmimId : List (String × String) :=
  [("TP53", "191170"), ("BRCA1", "113705"), ("BRCA2", "600185"), ("CFTR", "602421"),
   ("MLH1", "120436"), ("ERBB2", "164870"), ("MYH7", "160760")]

/-- `_fetch_omim_id_for_symbol`: the static map first, then the `mim2gene.txt`
mapping (an oracle, since it depends on an optional data file). -/
def fetchOmimIdForSymbol (cl : Clients) (symbol : String) : Option String :=
  if symbol = "" then none
  else
    let symU := upperStr symbol
    match geneToOmimId.lookup symU with
    | some i => some i
    | none => cl.mim2gene symU

/-- `_fetch_ncbi_gene_id_for_symbol` (the NCBI esearch call catches its own
exceptions and returns `None` on failure, hence a total oracle). -/
def fetchNcbiGeneIdForSymbol (cl : Clients) (symbol : String) : Option String :=
  if symbol = "" then none else cl.ncbiGeneIdLookup symbol

/-- The dict returned by `resolve_gene`. -/
structure ResolvedGene where
  symbol : Option String
  omim_id : Option String
  ncbi_id : Option String
deriving DecidableEq, Repr

/-- `resolve_gene`. -/
def resolveGene (cl : Clients) (userInput : String) : ResolvedGene :=
  if userInput = "" then ⟨none, none, none⟩
  else
    let symbol := normalizeGeneName userInput
    ⟨some symbol, fetchOmimIdForSymbol cl symbol, fetchNcbiGeneIdForSymbol cl symbol⟩

/-! ## Question parser (`app/question_parser.py`) -/

/-- One alternative of the parser's `HGVS_PATTERN` after `c.[0-9_]+`:
`[ACGTacgt]+>[ACGTacgt]+`. -/
def qpAltSubstitution (r : List Char) : Option (List Char) :=
  let b1 := takeWhileCls isBaseChar r
  if b1.1.isEmpty then none
  else
    match b1.2 with
    | '>' :: r2 =>
      let b2 := takeWhileCls isBaseChar r2
      if b2.1.isEmpty then none else some (b1.1 ++ '>' :: b2.1)
    | _ => none

/-- `del`/`ins` alternatives of the parser's `HGVS_PATTERN`: `<op>[ACGTacgt]+`. -/
def qpAltOp (opName : List Char) (r : List Char) : Option (List Char) :=
  match dropExact r opName with
  | none => none
  | some r2 =>
    let b := takeWhileCls isBaseChar r2
    if b.1.isEmpty then none else some (opName ++ b.1)

/-- Leftmost match of `question_parser.HGVS_PATTERN =
(c\.[0-9_]+[ACGTacgt]+>[ACGTacgt]+|c\.[0-9_]+del[ACGTacgt]+|c\.[0-9_]+ins[ACGTacgt]+)`
(no word-boundary anchors; alternatives tried in the regex's order). -/
def questionParserVariant : List Char → Option String
  | [] => none
  | c :: t =>
    (if c == 'c' then
      match t with
      | '.' :: rest =>
        let digs := takeWhileCls (fun d => d.isDigit || d == '_') rest
        if digs.1.isEmpty then none
        else
          ((qpAltSubstitution digs.2).orElse fun _ =>
           (qpAltOp "del".data digs.2).orElse fun _ =>
           qpAltOp "ins".data digs.2).map
            (fun tail => String.mk ('c' :: '.' :: digs.1 ++ tail))
      | _ => none
    else none).orElse (fun _ => questionParserVariant t)

/-- The dict returned by `build_question_json` (`raw` / `raw_question` collapse
to `raw`; the `variant` block keeps only the `hgvs` field the pipeline reads). -/
structure QuestionJson where
  raw : String
  gene_symbol : Option String
  resolved : ResolvedGene
  variant_hgvs : Option String
deriving DecidableEq, Repr

/-- `build_question_json`. -/
def buildQuestionJson (cl : Clients) (userQuestion : String) : QuestionJson :=
  let q := pyStrip userQuestion
  let geneRaw := extractGeneSymbol q
  let resolved :=
    match geneRaw with
    | some g => if g = "" then ⟨none, none, none⟩ else resolveGene cl g
    | none => ⟨none, none, none⟩
  { raw := q
    gene_symbol := geneRaw
    resolved := resolved
    variant_hgvs := questionParserVariant q.data }

/-! ## Pipeline helpers (`app/pipeline.py`) -/

/-- `known_genes` of `_looks_like_gene_or_variant`. -/
def knownGenes : List String := ["BRCA1", "BRCA2", "TP53", "CFTR", "ERBB2", "MYH7", "MLH1"]

/-- `re.search(r"\bc\.\d+", q)` — scanned on the text the caller passes (the
source applies it to the already-uppercased question, so it can only match a
lowercase `c` that survived, i.e. effectively never; the embedding reproduces the
check as written). -/
def hasCdotDigitFrom : Bool → List Char → Bool
  | _, [] => false
  | bdy, c :: t =>
    (bdy && c == 'c' &&
      (match t with
       | '.' :: d :: _ => d.isDigit
       | _ => false)) ||
    hasCdotDigitFrom (!isWordChar c) t

/-- `re.search(r"\bp\.[A-Z][a-z]{2}\d+", q)` — same remark as `hasCdotDigitFrom`. -/
def hasPdotProtFrom : Bool → List Char → Bool
  | _, [] => false
  | bdy, c :: t =>
    (bdy && c == 'p' &&
      (match t with
       | '.' :: a :: b :: c2 :: d :: _ => a.isUpper && b.isLower && c2.isLower && d.isDigit
       | _ => false)) ||
    hasPdotProtFrom (!isWordChar c) t

/-- `_looks_like_gene_or_variant`. -/
def looksLikeGeneOrVariant (userQuestion : String) : Bool :=
  let q := upperStr userQuestion
  knownGenes.any (fun g => containsSub q g) ||
  hasCdotDigitFrom true q.data ||
  hasPdotProtFrom true q.data

/-- `follow_up_indicators` of `_is_follow_up_question`. -/
def followUpIndicators : List String :=
  ["this", "it", "that", "these", "those",
   "my", "our", "their",
   "children", "family", "relatives",
   "screening", "worry", "concerned",
   "should i", "what about", "how about"]

/-- `_is_follow_up_question`: requires a truthy `current_gene` and a whole-word
occurrence of one of the vague-reference indicators in the lowercased question. -/
def isFollowUpQuestion (question : String) (st : ClinicalState) : Bool :=
  match st.current_gene with
  | none => false
  | some g =>
    if g = "" then false
    else
      let qLower := lowerStr question
      followUpIndicators.any (fun ind => containsWord qLower ind)

/-- `_inject_context`: append a parenthetical gene (and variant) annotation,
unless the gene already occurs in the question (case-insensitively). -/
def injectContext (question : String) (st : ClinicalState) : String :=
  match st.current_gene with
  | none => question
  | some gene =>
    if gene = "" then question
    else if containsSub (upperStr question) (upperStr gene) then question
    else
      match st.current_variant with
      | some v =>
        if v = "" then question ++ " (regarding " ++ gene ++ ")"
        else question ++ " (regarding " ++ gene ++ " " ++ v ++ ")"
      | none => question ++ " (regarding " ++ gene ++ ")"

/-- The question text the pipeline hands to `classify_intent`: the original
text, rewritten by `_inject_context` when a follow-up was detected and the
session has a (truthy) current gene. -/
def pipelineRewrittenQuestion (question : String) (st : ClinicalState) : String :=
  if isFollowUpQuestion question st && optTruthy st.current_gene then
    injectContext question st
  else question

/-- `_update_clinical_state_from_answer`: build the partial-update dict.  The
`unresolved_questions` branch tests `updates.get("test_context") == "unknown"`,
which can never hold (that key is only ever set to `"somatic"`/`"germline"`), so
no `unresolved_questions` update is produced. -/
def updatesFromAnswer (intent : Intent) (resolvedSymbol : Option String)
    (resolvedVariant : Option ResolvedVariant) : StateUpdates :=
  let rawQ := lowerStr intent.raw_question
  let topics :=
    (if containsSub rawQ "screening" then ["screening"] else []) ++
    (if containsSub rawQ "family" || containsSub rawQ "children" || containsSub rawQ "inherit" then ["family"] else []) ++
    (if containsSub rawQ "treatment" then ["treatment"] else []) ++
    (if containsSub rawQ "vus" then ["VUS"] else [])
  { current_gene :=
      match resolvedSymbol with
      | some s => if s = "" then none else some (some s)
      | none => none
    current_variant :=
      match resolvedVariant with
      | some v => some v.hgvs_c
      | none => none
    variant_classification :=
      if containsSub rawQ "vus" || containsSub rawQ "uncertain significance" then
        some (some "VUS")
      else none
    test_context :=
      if containsSub rawQ "somatic" || containsSub rawQ "tumor" then some (some "somatic")
      else if containsSub rawQ "germline" || containsSub rawQ "blood test" then some (some "germline")
      else none
    topics_discussed := if topics = [] then none else some topics }

/-- The stop-word set inside `_extract_candidate_gene_symbol` (transcribed
verbatim from `app/pipeline.py`; the Python set literal's duplicates are
harmless in a membership list). -/
def pipelineStopWords : List String :=
  ["GENE", "DNA", "RNA", "AND", "OR", "THE", "BUT", "FOR", "WITH", "THAT", "THIS",
   "WHAT", "WHO", "WHY", "HOW", "WHEN", "WHERE", "TELL", "ASK", "SAY", "GIVE",
   "SHOW", "LIST", "FIND", "SEARCH", "GET", "KNOW", "HAVE", "HAS", "HAD", "WAS",
   "IS", "ARE", "WERE", "BE", "BEEN", "CAN", "COULD", "SHOULD", "WOULD", "MAY",
   "MIGHT", "MUST", "DO", "DOES", "DID", "DONE", "USE", "USED", "USING", "ABOUT",
   "LIKE", "NEED", "WANT", "HELP", "PLEASE", "THANKS", "THANK", "HELLO", "HEY",
   "HI", "GOOD", "BAD", "NOT", "YES", "NO", "ANY", "ALL", "SOME", "MANY", "MOST",
   "MORE", "LESS", "ONE", "TWO", "THREE", "ZERO", "FIRST", "LAST", "NEXT", "PREV",
   "BACK", "FRONT", "TOP", "BOTTOM", "LEFT", "RIGHT", "SIDE", "END", "START",
   "STOP", "GO", "COME", "SEE", "LOOK", "WATCH", "WAIT", "TIME", "DAY", "YEAR",
   "MUTATION", "VARIANT", "DISEASE", "SYNDROME", "DISORDER", "CONDITION", "PROBLEM",
   "ISSUE", "RISK", "FACTOR", "CAUSE", "EFFECT", "RESULT", "TEST", "CHECK", "CASE",
   "REPORT", "STUDY", "PAPER", "ARTICLE", "JOURNAL", "BOOK", "PAGE", "WEB", "SITE",
   "LINK", "URL", "HTTP", "HTTPS", "COM", "ORG", "NET", "EDU", "GOV", "INFO", "BIZ",
   "NAME", "TERM", "WORD", "TEXT", "STRING", "LINE", "FILE", "DATA", "CODE", "APP",
   "TOOL", "USER", "CHAT", "BOT", "AI", "LLM", "GPT", "OPENAI", "API", "KEY", "ID",
   "SRC", "DST", "OBJ", "MSG", "REQ", "RES", "ERR", "LOG", "DEBUG", "WARN", "FAIL",
   "PASS", "TRUE", "FALSE", "NULL", "NONE", "NAN", "INF", "INT", "FLOAT", "STR",
   "BOOL", "LIST", "DICT", "SET", "TUPLE", "CLASS", "DEF", "FUNC", "VAR", "VAL",
   "LET", "CONST", "IF", "ELSE", "ELIF", "WHILE", "FOR", "TRY", "EXCEPT", "FINALLY",
   "RETURN", "YIELD", "BREAK", "CONTINUE", "IMPORT", "FROM", "AS", "IN", "IS", "NOT",
   "AND", "OR", "NOT", "XOR", "NAND", "NOR", "XNOR", "EQUALS", "EQUAL", "SAME",
   "DIFF", "HETERO", "HOMO", "ZYGOUS", "GENOTYPE", "PHENOTYPE", "ALLELE", "LOCUS",
   "CHROMOSOME", "PROTEIN", "ENZYME", "RECEPTOR", "PATHWAY", "CELL", "TISSUE", "ORGAN",
   "SYSTEM", "BODY", "BLOOD", "URINE", "SALIVA", "TEST", "SAMPLE", "PATIENT", "DOCTOR",
   "NURSE", "CLINIC", "HOSPITAL", "LAB", "CENTER", "GROUP", "TEAM", "FAMILY", "PARENT",
   "CHILD", "SON", "DAUGHTER", "BROTHER", "SISTER", "WIFE", "HUSBAND", "MOTHER", "FATHER",
   "AUNT", "UNCLE", "COUSIN", "NEPHEW", "NIECE", "GRAND", "GREAT", "STEP", "HALF", "INLAW",
   "FRIEND", "GUY", "GIRL", "MAN", "WOMAN", "BOY", "KID", "BABY", "ADULT", "SENIOR",
   "HUMAN", "PERSON", "PEOPLE", "SOMEONE", "ANYONE", "NOONE", "EVERYONE", "EVERYBODY",
   "NOBODY", "SOMEBODY", "ANYBODY", "THING", "SOMETHING", "ANYTHING", "NOTHING", "EVERYTHING",
   "IT", "HE", "SHE", "THEY", "THEM", "HIM", "HER", "US", "WE", "ME", "MY", "YOUR", "OUR",
   "THEIR", "HIS", "HERS", "ITS", "MINE", "YOURS", "THEIRS", "OURS", "MYSELF", "YOURSELF",
   "HIMSELF", "HERSELF", "ITSELF", "THEMSELVES", "OURSELVES", "YOURSELVES", "WHOSE", "WHOM",
   "WHICH", "THAT", "THESE", "THOSE", "THIS", "SUCH", "SAME", "OTHER", "ANOTHER", "EACH",
   "EVERY", "BOTH", "EITHER", "NEITHER", "OWN", "SELF", "VERY", "TOO", "ALSO", "EVEN",
   "JUST", "ONLY", "QUITE", "RATHER", "ALMOST", "NEARLY", "ALWAYS", "NEVER", "OFTEN",
   "OFTEN", "SOMETIMES", "SELDOM", "RARELY", "HARDLY", "SCARCELY", "BARELY", "EVER",
   "NOW", "THEN", "HERE", "THERE", "AWAY", "OUT", "IN", "UP", "DOWN", "OFF", "OVER",
   "UNDER", "AGAIN", "ONCE", "TWICE", "THRICE", "FIRSTLY", "SECONDLY", "THIRDLY"]

/-- `_extract_candidate_gene_symbol`: all-alphanumeric tokens (`\b[A-Za-z0-9]+\b`),
length 3 to 10, containing a letter, fully uppercase, not a stop word; the last
surviving candidate wins. -/
def extractCandidateGeneSymbol (text : String) : Option String :=
  let tokens := (wordRuns text).filter (fun t => t.data.all Char.isAlphanum)
  let candidates := tokens.filter (fun t =>
    3 ≤ t.length && t.length ≤ 10 &&
    t.data.any Char.isAlpha &&
    pyIsUpper t &&
    !(pipelineStopWords.contains t))
  candidates.getLast?

/-- `smalltalk_phrases` of `_is_general_chat`. -/
def smalltalkPhrases : List String :=
  ["hi", "hii", "hiii", "hello", "hey", "hey there", "hi there", "how are you",
   "who are you", "can you help me", "i need help", "help", "good morning",
   "good evening"]

/-- `emotional_words` of `_is_general_chat`. -/
def emotionalWords : List String :=
  ["sad", "not good", "depressed", "anxious", "lonely", "confused", "tired",
   "burned out", "overwhelmed"]

/-- `study_words` of `_is_general_chat`. -/
def studyWords : List String :=
  ["math", "calculus", "homework", "assignment", "exam", "project", "programming",
   "code", "python", "ml", "machine learning", "statistics"]

/-- `re.sub(r"[^\w\s]", "", q)`: keep word characters and whitespace. -/
def stripPunct (s : String) : String :=
  String.mk (s.data.filter (fun c => isWordChar c || c.isWhitespace))

/-- `_is_general_chat` (its `intent` parameter is unused in the source). -/
def isGeneralChat (userQuestion : String) : Bool :=
  let q := lowerStr (pyStrip userQuestion)
  let qClean := stripPunct q
  if smalltalkPhrases.contains qClean then true
  else if emotionalWords.any (fun w => containsSub q w) && !looksLikeGeneOrVariant userQuestion then true
  else if studyWords.any (fun w => containsSub q w) && !looksLikeGeneOrVariant userQuestion then true
  else
    (splitWs qClean).length ≤ 4 &&
    !(qClean.data.any Char.isDigit) &&
    !looksLikeGeneOrVariant userQuestion

/-- The `invalid_symbols` blocklist of the pipeline's upgrade pass and
hallucination guard (both occurrences are identical). -/
def invalidSymbols : List String :=
  ["DNA", "RNA", "GENE", "VARIANT", "MUTATION", "CHROMOSOME", "PROTEIN", "GENOME", "CELL",
   "RISK", "BAD", "GOOD", "HELP", "YES", "NO", "SURE", "OKAY", "TEST", "RESULT",
   "DANGEROUS", "SCARY", "WORRIED", "UNKNOWN", "VUS", "PATHOGENIC", "BENIGN",
   "POSITIVE", "NEGATIVE", "WHAT", "WHY", "HOW", "WHEN"]

/-- `re.match(r"^[A-Z0-9]{2,10}$", s)`: the whole string is 2 to 10 characters
of `[A-Z0-9]`. -/
def isValidSymbolFormat (s : String) : Bool :=
  2 ≤ s.length && s.length ≤ 10 && s.data.all isUpperAlnumChar

/-- The ambiguous-phrasing patterns of the clarification gate. -/
def ambiguousPhrases : List String :=
  ["is it dangerous", "is this bad", "should i worry", "what does this mean",
   "is it pathogenic", "is it benign", "what should i do", "more concerning"]

/-- The partial-update dict written by the context transition guard. -/
def resetUpdates : StateUpdates :=
  { current_gene := some none
    current_variant := some none
    variant_classification := some none
    test_context := some none }

/-- The context transition guard's decision (`context_reset_needed`). -/
def contextResetNeeded (intent : Intent) (oldGene : Option String) (isFollowUp : Bool) : Bool :=
  let fromNewGene :=
    match intent.gene_symbol, oldGene with
    | some d, some o =>
      d != "" && o != "" && upperStr d != upperStr o && !isFollowUp
    | _, _ => false
  let fromGeneric :=
    (intent.intent == "broad_science_question" || intent.intent == "general_question") &&
    !isFollowUp && !(optTruthy intent.gene_symbol)
  fromNewGene || fromGeneric

/-- Upgrade pass 1.5: `general_question` plus `"genes"` plus an organ/disease
keyword becomes `broad_science_question`. -/
def upgradeBroadScience (intent : Intent) (rawLower : String) : Intent :=
  if intent.intent == "general_question" &&
     containsSub rawLower "genes" &&
     (["heart", "cardiac", "cancer", "tumor", "diabetes"].any (fun w => containsSub rawLower w)) then
    { intent with intent := "broad_science_question" }
  else intent

/-- Upgrade pass 1.55: `general_question` with an extractable, well-formed,
non-blocklisted candidate symbol becomes `gene_question`. -/
def upgradeGeneFromCaps (intent : Intent) (userQuestion : String) : Intent :=
  if intent.intent == "general_question" then
    match extractCandidateGeneSymbol userQuestion with
    | some cand =>
      if isValidSymbolFormat cand && !(invalidSymbols.contains (upperStr cand)) then
        { intent with intent := "gene_question", gene_symbol := some cand }
      else intent
    | none => intent
  else intent

/-- The hallucination guard: a truthy gene symbol that fails the strict format
check or is blocklisted is stripped and the intent reverted to `general_question`. -/
def hallucinationGuard (intent : Intent) : Intent :=
  match intent.gene_symbol with
  | some s =>
    if s = "" then intent
    else if !(isValidSymbolFormat s) || invalidSymbols.contains (upperStr s) then
      { intent with intent := "general_question", gene_symbol := none }
    else intent
  | none => intent

/-- The intent produced by the pipeline's intent-processing chain on the (already
rewritten) question: classification, both upgrade passes, hallucination guard. -/
def processedIntent (question : String) : Intent :=
  hallucinationGuard
    (upgradeGeneFromCaps (upgradeBroadScience (classifyIntent question) (lowerStr question)) question)

/-- The replacement intent dict of the general-chat override (built without a
`context` key in the source). -/
def forcedGeneralIntent (q : String) : Intent :=
  { intent := "general_question", raw_question := q, gene_symbol := none,
    variant := none, context := none }

/-- The clarification text returned by the ambiguity gate. -/
def clarificationMessage : String :=
  "I can help with that, but I'm not sure which gene or variant you are referring to. Could you please provide the gene symbol (e.g., BRCA1) or the specific result you are asking about?"

/-- The generic-placeholder blocklist applied to the symbol saved to the session
at the end of the pipeline. -/
def genericSymbolsNotSaved : List String :=
  ["DNA", "RNA", "GENE", "VARIANT", "MUTATION", "CHROMOSOME", "PROTEIN", "GENOME", "CELL"]

/-- The Answer Record (`answer_json`).  Presentation-only blocks that no claim
refers to (`overall_assessment`, `source_summaries`, `memory_hit`,
`disease_focus`, the gene-ID aliases) are elided; `gene_symbol` is the top-level
`gene.symbol`, `clinical_state` the freshly re-read state attached at the end
(absent for the early exits and session-less calls). -/
structure AnswerRecord where
  question_type : String
  evidence : Evidence
  gene_symbol : Option String
  intent : Intent
  clinical_state : Option ClinicalState
deriving DecidableEq, Repr

/-- What a pipeline call returns: a full answer record, or the ambiguity gate's
clarification response (a plain dict with an `answer` text and the intent). -/
inductive PipelineResult where
  | clarification (answer : String) (intent : Intent)
  | record (answer : AnswerRecord)
deriving DecidableEq, Repr

/-- The broad-science answer record (`_build_broad_science_answer`): question type
`broad_science`, no gene, the PubMed-only evidence bundle, the current intent. -/
def broadScienceRecord (cl : Clients) (userQuestion : String) (intent : Intent) : AnswerRecord :=
  { question_type := "broad_science"
    evidence := buildBroadScienceEvidence cl userQuestion
    gene_symbol := none
    intent := intent
    clinical_state := none }
/-- The pipeline from the clarification gate onward (`run_genegpt_pipeline` after
the hallucination guard): `userQuestion` is the (possibly rewritten) question,
`intent3` the intent after both upgrade passes and the hallucination guard,
`currentGeneInSession` the `current_gene` of the (possibly reset and reloaded)
clinical state, and `sessStored` the session state persisted so far (`none` = no
session id). -/
def pipelineAfterIntent (cl : Clients) (userQuestion : String) (intent3 : Intent)
    (currentGeneInSession : Option String) (sessStored : Option ClinicalState) :
    Except String (PipelineResult × Option ClinicalState) :=
  if !(optTruthy currentGeneInSession) && !(optTruthy intent3.gene_symbol) &&
     ambiguousPhrases.any (fun p => containsSub (lowerStr userQuestion) p) then
    .ok (.clarification clarificationMessage intent3, sessStored)
  else
    let intent4 :=
      if !(["broad_science_question", "gene_question", "variant_question",
            "risk_question", "disease_question", "guidance_question"].contains intent3.intent) &&
         isGeneralChat userQuestion then
        forcedGeneralIntent userQuestion
      else intent3
    if intent4.intent == "broad_science_question" then
      .ok (.record (broadScienceRecord cl userQuestion intent4), sessStored)
    else
      let qj := buildQuestionJson cl userQuestion
      if intent4.intent == "general_question" then
        .ok (.record { question_type := "general", evidence := generalChatEvidence,
                       gene_symbol := none, intent := intent4, clinical_state := none },
             sessStored)
      else
        -- gene/variant logic (steps 4 to 8 of the source)
        let geneSymbolRaw := qj.gene_symbol
        let intentGene := intent4.gene_symbol.map pyStrip
        let override :=
          match intentGene with
          | some g =>
            g != "" &&
            (match geneSymbolRaw with
             | none => true
             | some r => r = "" || upperStr r != upperStr g)
          | none => false
        let geneSymbolRaw2 := if override then intentGene else geneSymbolRaw
        let resolvedBlock : ResolvedGene :=
          if override then
            { symbol := intentGene, omim_id := qj.resolved.omim_id, ncbi_id := qj.resolved.ncbi_id }
          else qj.resolved
        let resolvedSymbol := orOptStr resolvedBlock.symbol geneSymbolRaw2
        let resolvedOmimId := resolvedBlock.omim_id
        let resolvedNcbiId := resolvedBlock.ncbi_id
        let variantHgvsFromParser := qj.variant_hgvs
        let geneForVariant := orOptStr resolvedSymbol geneSymbolRaw2
        let resolvedVariantObj := resolveVariant userQuestion geneForVariant
        let tokenFromObj :=
          match resolvedVariantObj with
          | some v => firstTruthy [v.rs_id, v.hgvs_c, v.hgvs_p]
          | none => none
        let variantSearchToken := orOptStr tokenFromObj variantHgvsFromParser
        let intentLabel := intent4.intent
        -- question-type decision; `none` means an early broad-science exit
        let questionType : Option String :=
          if (intentLabel == "variant_question" || intentLabel == "risk_question" ||
              intentLabel == "guidance_question") && optTruthy variantSearchToken then
            some "variant"
          else if intentLabel == "guidance_question" && optTruthy resolvedSymbol then
            some "gene"
          else if intentLabel == "gene_question" then some "gene"
          else if intentLabel == "disease_question" then
            if optTruthy resolvedSymbol then some "gene" else none
          else
            if !(optTruthy resolvedSymbol) && !(optTruthy variantSearchToken) then none
            else if optTruthy variantSearchToken then some "variant"
            else some "gene"
        match questionType with
        | none => .ok (.record (broadScienceRecord cl userQuestion intent4), sessStored)
        | some qt =>
          let evResult :=
            if qt == "variant" && optTruthy variantSearchToken then
              buildEvidenceForVariantQuestion cl (resolvedSymbol.getD "")
                (variantSearchToken.getD "") resolvedOmimId resolvedNcbiId
            else
              buildEvidenceForGeneQuestion cl (resolvedSymbol.getD "")
                resolvedOmimId resolvedNcbiId
          match evResult with
          | .error e => .error e
          | .ok ev =>
            let finalStore : Option ClinicalState :=
              match sessStored with
              | some stMid =>
                let symbolToSave :=
                  match resolvedSymbol with
                  | some s =>
                    if s != "" && genericSymbolsNotSaved.contains (upperStr s) then none
                    else some s
                  | none => none
                some (updateClinicalState stMid
                  (updatesFromAnswer intent4 symbolToSave resolvedVariantObj))
              | none => none
            .ok (.record { question_type := qt, evidence := ev,
                           gene_symbol := resolvedSymbol, intent := intent4,
                           clinical_state := finalStore },
                 finalStore)

/-- The context transition guard's effect on the session: when a reset is
needed and a session exists, the reset update is written and the state reloaded;
the pair is (clinical state used from here on, stored session state). -/
def guardStoredState (needReset : Bool) (sess : Option ClinicalState)
    (cs0 : ClinicalState) : ClinicalState × Option ClinicalState :=
  match sess with
  | some st =>
    if needReset then
      (updateClinicalState st resetUpdates, some (updateClinicalState st resetUpdates))
    else (st, some st)
  | none => (cs0, none)

/-- `run_genegpt_pipeline`.  `sess` is the session's stored clinical state
(`none` = no `session_id` supplied; the source then uses an empty dict, whose
`.get` reads of `current_gene`/`current_variant` agree with the default state
used here).  The returned pair is (pipeline result, stored session state after
the call). -/
def runPipeline (cl : Clients) (userQuestion0 : String) (sess : Option ClinicalState) :
    Except String (PipelineResult × Option ClinicalState) :=
  let clinicalState0 := sess.getD createDefaultState
  let userQuestion := pipelineRewrittenQuestion userQuestion0 clinicalState0
  let stateAndStore := guardStoredState
    (contextResetNeeded (classifyIntent userQuestion) clinicalState0.current_gene
      (isFollowUpQuestion userQuestion0 clinicalState0))
    sess clinicalState0
  pipelineAfterIntent cl userQuestion (processedIntent userQuestion)
    stateAndStore.1.current_gene stateAndStore.2

/-! ## Helper definitions used by the theorem statements -/

/-- The six required evidence keys of the spec's bundle contract. -/
def sixRequiredKeys : List String := ["omim", "ncbi", "pubmed", "clinvar", "genereviews", "gnomad"]

/-- A clients record whose calls all succeed (PubMed "finds papers", the rest
return no-data records); the id lookups find nothing. -/
def okClients : Clients :=
  { omim := fun _ _ => .ok (unusedBox "no data")
    ncbi := fun _ _ => .ok (unusedBox "no data")
    pubmed := fun _ => .ok { used := true, reason := none }
    genereviews := fun _ => .ok (unusedBox "no data")
    gnomad := fun _ => .ok (unusedBox "no data")
    clinvar := fun _ _ => .ok (unusedBox "no data")
    ncbiGeneIdLookup := fun _ => none
    mim2gene := fun _ => none }

/-- A clients record whose OMIM call raises. -/
def raisingOmimClients : Clients := { okClients with omim := fun _ _ => .error "omim boom" }

/-- A clients record whose OMIM call reports `used = True`. -/
def omimUsedClients : Clients := { okClients with omim := fun _ _ => .ok { used := true, reason := none } }

/-- The intent label of a pipeline outcome. -/
def resultIntentLabel : Except String (PipelineResult × Option ClinicalState) → Option String
  | .ok (.record r, _) => some r.intent.intent
  | .ok (.clarification _ i, _) => some i.intent
  | .error _ => none

/-- The evidence key list of a pipeline outcome's answer record. -/
def resultEvidenceKeys : Except String (PipelineResult × Option ClinicalState) → Option (List String)
  | .ok (.record r, _) => some (evidenceKeys r.evidence)
  | _ => none

/-- The `used` flag of one evidence source of a pipeline outcome's answer record. -/
def resultBoxUsed (k : String) : Except String (PipelineResult × Option ClinicalState) → Option Bool
  | .ok (.record r, _) => (lookupBox r.evidence k).map SrcBox.used
  | _ => none

/-- The score of the first item of a decaying list whose text matches `t`
case-insensitively. -/
def scoreOf (l : List ScoredItem) (t : String) : Option Int :=
  (l.find? (fun e => lowerStr e.text == lowerStr t)).map ScoredItem.score

/-- How many items of a decaying list match `t` case-insensitively. -/
def matchCount (l : List ScoredItem) (t : String) : Nat :=
  (l.filter (fun e => lowerStr e.text == lowerStr t)).length

/-! ## Claim theorems -/

/-- C3: the claim says an `update` whose incoming `topics_discussed` contains the
sentinel `"__CLEAR__"` empties the stored topic set.  Evaluating the embedded
`update_clinical_state` at the failing input (stored topics `{"screening"}`,
incoming topics `["__CLEAR__"]`) shows the code instead unions the sentinel into
the set: the result is `{"screening", "__CLEAR__"}`, not the empty set — the
sentinel branch exists only for `recent_facts`/`user_concerns`. -/
theorem C3_theorem :
    (updateClinicalState { createDefaultState with topics_discussed := ["screening"] }
      { topics_discussed := some ["__CLEAR__"] }).topics_discussed = ["screening", "__CLEAR__"] ∧
    (updateClinicalState { createDefaultState with topics_discussed := ["screening"] }
      { topics_discussed := some ["__CLEAR__"] }).topics_discussed ≠ [] := by
  decide

/-- C9: whenever the pipeline's end-of-run state update is built with a resolved
gene and a parsed variant, the stored `current_variant` is overwritten with the
parsed variant's `hgvs_c` field — in particular it becomes `null` when the
variant was recognised only as an rsID or protein change (`hgvs_c = none`),
rather than keeping the previous value or storing the rsID/protein form. -/
theorem C9_theorem : ∀ (st : ClinicalState) (intent : Intent) (g : String) (v : ResolvedVariant),
    g ≠ "" →
    (updateClinicalState st (updatesFromAnswer intent (some g) (some v))).current_variant = v.hgvs_c := by
  intro st intent g v hg
  rfl

/-- Witness for C9: a concrete rsID-only variant (`hgvs_c = none`) overwrites a
previously stored `current_variant` with `none`. -/
theorem C9_witness :
    ("BRCA1" ≠ "") ∧
    (updateClinicalState { createDefaultState with current_variant := some "c.68_69delAG" }
      (updatesFromAnswer (forcedGeneralIntent "is rs123 bad?") (some "BRCA1")
        (some { gene_symbol := some "BRCA1", rs_id := some "rs123", hgvs_c := none,
                hgvs_p := none, raw := some "is rs123 bad?" }))).current_variant = none :=
  ⟨by decide,
   C9_theorem { createDefaultState with current_variant := some "c.68_69delAG" }
     (forcedGeneralIntent "is rs123 bad?") "BRCA1"
     { gene_symbol := some "BRCA1", rs_id := some "rs123", hgvs_c := none,
       hgvs_p := none, raw := some "is rs123 bad?" } (by decide)⟩

/-- C10: a stored session snapshot that fails to parse as JSON makes
`get_clinical_state` return the freshly constructed default state — exactly the
behaviour of a missing session — with `current_gene` null,
`variant_classification` `"unknown"` and empty collections. -/
theorem C10_theorem : ∀ (parseSnapshot : String → Option ClinicalState) (data : String),
    parseSnapshot data = none →
    getClinicalState parseSnapshot (some data) = createDefaultState ∧
    getClinicalState parseSnapshot (some data) = getClinicalState parseSnapshot none ∧
    createDefaultState.current_gene = none ∧
    createDefaultState.variant_classification = some "unknown" ∧
    createDefaultState.topics_discussed = [] ∧
    createDefaultState.recent_facts = [] ∧
    createDefaultState.user_concerns = [] ∧
    createDefaultState.unresolved_questions = [] := by
  intro parseSnapshot data h
  simp only [getClinicalState]
  rw [h]
  exact ⟨rfl, rfl, rfl, rfl, rfl, rfl, rfl, rfl⟩

/-- Witness for C10: a parser that rejects the concrete snapshot text. -/
theorem C10_witness :
    ((fun _ => (none : Option ClinicalState)) "corrupted snapshot" = none) ∧
    getClinicalState (fun _ => none) (some "corrupted snapshot") = createDefaultState :=
  ⟨rfl, ( C10_theorem (fun _ => none) "corrupted snapshot" rfl).1⟩

lemma scoreOf_cons_pos {tx t : String} {sc : Int} (l : List ScoredItem)
    (h : lowerStr tx = lowerStr t) : scoreOf (⟨tx, sc⟩ :: l) t = some sc := by
  simp [scoreOf, List.find?_cons_of_pos, h]

lemma scoreOf_cons_neg {tx t : String} {sc : Int} (l : List ScoredItem)
    (h : lowerStr tx ≠ lowerStr t) : scoreOf (⟨tx, sc⟩ :: l) t = scoreOf l t := by
  simp only [scoreOf]
  rw [List.find?_cons_of_neg]
  simp [h]

lemma matchCount_cons_pos {tx t : String} {sc : Int} (l : List ScoredItem)
    (h : lowerStr tx = lowerStr t) : matchCount (⟨tx, sc⟩ :: l) t = matchCount l t + 1 := by
  simp [matchCount, List.filter_cons, h]

lemma matchCount_cons_neg {tx t : String} {sc : Int} (l : List ScoredItem)
    (h : lowerStr tx ≠ lowerStr t) : matchCount (⟨tx, sc⟩ :: l) t = matchCount l t := by
  simp [matchCount, List.filter_cons, h]

lemma matchCount_zero_scoreOf {l : List ScoredItem} {t : String}
    (h : matchCount l t = 0) : scoreOf l t = none := by
  induction l with
  | nil => rfl
  | cons e l ih =>
    obtain ⟨tx, sc⟩ := e
    by_cases hp : lowerStr tx = lowerStr t
    · rw [matchCount_cons_pos l hp] at h; omega
    · rw [matchCount_cons_neg l hp] at h
      rw [scoreOf_cons_neg l hp]
      exact ih h

lemma decayList_cons (tx : String) (sc : Int) (l : List ScoredItem) :
    decayList (⟨tx, sc⟩ :: l) =
      if sc - 1 > 0 then (⟨tx, sc - 1⟩ : ScoredItem) :: decayList l
      else decayList l := by
  simp only [decayList, List.map_cons, List.filter_cons]
  split <;> rename_i h
  · rw [if_pos]; simpa using h
  · rw [if_neg]; simpa using h

lemma matchCount_decayList_zero {l : List ScoredItem} {t : String}
    (h : matchCount l t = 0) : matchCount (decayList l) t = 0 := by
  induction l with
  | nil => rfl
  | cons e l ih =>
    obtain ⟨tx, sc⟩ := e
    by_cases hp : lowerStr tx = lowerStr t
    · rw [matchCount_cons_pos l hp] at h; omega
    · rw [matchCount_cons_neg l hp] at h
      rw [decayList_cons]
      split
      · rw [matchCount_cons_neg _ hp]
        exact ih h
      · exact ih h

lemma decay_unique {l : List ScoredItem} {t : String} {s : Int}
    (h1 : matchCount l t = 1) (h2 : scoreOf l t = some s) :
    (1 < s → scoreOf (decayList l) t = some (s - 1) ∧ matchCount (decayList l) t = 1) ∧
    (s ≤ 1 → scoreOf (decayList l) t = none ∧ matchCount (decayList l) t = 0) := by
  induction l with
  | nil => simp [matchCount] at h1
  | cons e l ih =>
    obtain ⟨tx, sc⟩ := e
    by_cases hp : lowerStr tx = lowerStr t
    · rw [matchCount_cons_pos l hp] at h1
      rw [scoreOf_cons_pos l hp] at h2
      have hs : sc = s := by injection h2
      have hml : matchCount l t = 0 := by omega
      rw [decayList_cons]
      constructor
      · intro hlt
        rw [if_pos (by omega)]
        refine ⟨?_, ?_⟩
        · rw [scoreOf_cons_pos _ hp, hs]
        · rw [matchCount_cons_pos _ hp, matchCount_decayList_zero hml]
      · intro hle
        rw [if_neg (by omega)]
        exact ⟨matchCount_zero_scoreOf (matchCount_decayList_zero hml),
               matchCount_decayList_zero hml⟩
    · rw [matchCount_cons_neg l hp] at h1
      rw [scoreOf_cons_neg l hp] at h2
      have key := ih h1 h2
      rw [decayList_cons]
      split
      · exact ⟨fun hlt => ⟨by rw [scoreOf_cons_neg _ hp]; exact (key.1 hlt).1,
                           by rw [matchCount_cons_neg _ hp]; exact (key.1 hlt).2⟩,
               fun hle => ⟨by rw [scoreOf_cons_neg _ hp]; exact (key.2 hle).1,
                           by rw [matchCount_cons_neg _ hp]; exact (key.2 hle).2⟩⟩
      · exact key

lemma resetFirst_preserve {t x : String} (hx : lowerStr x ≠ lowerStr t) :
    ∀ (l l2 : List ScoredItem), resetFirstMatch l x = some l2 →
      scoreOf l2 t = scoreOf l t ∧ matchCount l2 t = matchCount l t := by
  intro l
  induction l with
  | nil =>
    intro l2 h
    exact Option.noConfusion (show (none : Option (List ScoredItem)) = some l2 from h)
  | cons e l ih =>
    obtain ⟨tx, sc⟩ := e
    intro l2 h
    simp only [resetFirstMatch] at h
    split at h
    · rename_i hmatch
      injection h with h
      subst h
      have htx : lowerStr tx ≠ lowerStr t := by
        rw [hmatch]; exact hx
      refine ⟨?_, ?_⟩
      · rw [scoreOf_cons_neg _ htx, scoreOf_cons_neg _ htx]
      · rw [matchCount_cons_neg _ htx, matchCount_cons_neg _ htx]
    · rename_i hmatch
      cases hr : resetFirstMatch l x with
      | none => rw [hr] at h; simp at h
      | some l2p =>
        rw [hr] at h
        simp only [Option.map_some'] at h
        injection h with h
        subst h
        have hrec := ih l2p hr
        by_cases hp : lowerStr tx = lowerStr t
        · refine ⟨?_, ?_⟩
          · rw [scoreOf_cons_pos _ hp, scoreOf_cons_pos _ hp]
          · rw [matchCount_cons_pos _ hp, matchCount_cons_pos _ hp, hrec.2]
        · rw [scoreOf_cons_neg _ hp, scoreOf_cons_neg _ hp,
              matchCount_cons_neg _ hp, matchCount_cons_neg _ hp]
          exact hrec

lemma append_single_preserve {t x : String} {sc : Int} (hx : lowerStr x ≠ lowerStr t) :
    ∀ (l : List ScoredItem),
      scoreOf (l ++ [⟨x, sc⟩]) t = scoreOf l t ∧ matchCount (l ++ [⟨x, sc⟩]) t = matchCount l t := by
  intro l
  induction l with
  | nil =>
    constructor
    · rw [List.nil_append, scoreOf_cons_neg _ hx]
    · rw [List.nil_append, matchCount_cons_neg _ hx]
  | cons e l ih =>
    obtain ⟨tx, s2⟩ := e
    by_cases hp : lowerStr tx = lowerStr t
    · refine ⟨?_, ?_⟩
      · rw [List.cons_append, scoreOf_cons_pos _ hp, scoreOf_cons_pos _ hp]
      · rw [List.cons_append, matchCount_cons_pos _ hp, matchCount_cons_pos _ hp, ih.2]
    · rw [List.cons_append, scoreOf_cons_neg _ hp, scoreOf_cons_neg _ hp,
          matchCount_cons_neg _ hp, matchCount_cons_neg _ hp]
      exact ih

lemma merge_preserve {t x : String} (hx : lowerStr x ≠ lowerStr t) (acc : List ScoredItem) :
    scoreOf (mergeIncomingItem acc x) t = scoreOf acc t ∧
    matchCount (mergeIncomingItem acc x) t = matchCount acc t := by
  unfold mergeIncomingItem
  split
  · exact ⟨rfl, rfl⟩
  · cases hr : resetFirstMatch acc x with
    | none => exact append_single_preserve hx acc
    | some l2 => exact resetFirst_preserve hx acc l2 hr

lemma foldl_merge_preserve {t : String} :
    ∀ (ins : List String) (acc : List ScoredItem),
      (∀ x ∈ ins, lowerStr x ≠ lowerStr t) →
      scoreOf (ins.foldl mergeIncomingItem acc) t = scoreOf acc t ∧
      matchCount (ins.foldl mergeIncomingItem acc) t = matchCount acc t := by
  intro ins
  induction ins with
  | nil => intro acc _; exact ⟨rfl, rfl⟩
  | cons x ins ih =>
    intro acc h
    rw [List.foldl_cons]
    have hx := h x (List.mem_cons_self x ins)
    have hrest : ∀ y ∈ ins, lowerStr y ≠ lowerStr t := fun y hy => h y (List.mem_cons_of_mem x hy)
    have hm := merge_preserve hx acc
    have hf := ih (mergeIncomingItem acc x) hrest
    exact ⟨hf.1.trans hm.1, hf.2.trans hm.2⟩

lemma decayMerge_unique {old : List ScoredItem} {incoming : List String} {t : String} {s : Int}
    (h1 : matchCount old t = 1) (h2 : scoreOf old t = some s)
    (hc : "__CLEAR__" ∉ incoming) (hm : ∀ x ∈ incoming, lowerStr x ≠ lowerStr t) :
    (1 < s → scoreOf (decayMergeList old incoming) t = some (s - 1) ∧
             matchCount (decayMergeList old incoming) t = 1) ∧
    (s ≤ 1 → scoreOf (decayMergeList old incoming) t = none ∧
             matchCount (decayMergeList old incoming) t = 0) := by
  have hdec := decay_unique h1 h2
  unfold decayMergeList
  split
  · exact hdec
  · rw [if_neg (by simpa using hc)]
    have hf := foldl_merge_preserve incoming (decayList old) hm
    exact ⟨fun hlt => ⟨hf.1.trans (hdec.1 hlt).1, hf.2.trans (hdec.1 hlt).2⟩,
           fun hle => ⟨hf.1.trans (hdec.2 hle).1, hf.2.trans (hdec.2 hle).2⟩⟩

lemma decayMerge_zero {old : List ScoredItem} {incoming : List String} {t : String}
    (h1 : matchCount old t = 0)
    (hc : "__CLEAR__" ∉ incoming) (hm : ∀ x ∈ incoming, lowerStr x ≠ lowerStr t) :
    scoreOf (decayMergeList old incoming) t = none ∧
    matchCount (decayMergeList old incoming) t = 0 := by
  have hd := matchCount_decayList_zero h1
  unfold decayMergeList
  split
  · exact ⟨matchCount_zero_scoreOf hd, hd⟩
  · rw [if_neg (by simpa using hc)]
    have hf := foldl_merge_preserve incoming (decayList old) hm
    exact ⟨hf.1.trans (matchCount_zero_scoreOf hd), hf.2.trans hd⟩

lemma foldl_decayMerge_zero {t : String} :
    ∀ (ins : List (List String)) (old : List ScoredItem),
      matchCount old t = 0 →
      (∀ l ∈ ins, "__CLEAR__" ∉ l ∧ ∀ x ∈ l, lowerStr x ≠ lowerStr t) →
      scoreOf (ins.foldl decayMergeList old) t = none ∧
      matchCount (ins.foldl decayMergeList old) t = 0 := by
  intro ins
  induction ins with
  | nil => intro old h _; exact ⟨matchCount_zero_scoreOf h, h⟩
  | cons l ins ih =>
    intro old h hins
    rw [List.foldl_cons]
    have hl := hins l (List.mem_cons_self l ins)
    have hstep := decayMerge_zero h hl.1 hl.2
    exact ih (decayMergeList old l) hstep.2
      (fun l2 hl2 => hins l2 (List.mem_cons_of_mem l hl2))

/-- C8 (amended): across consecutive `update` calls whose incoming lists contain
no case-insensitive match for a uniquely-represented item's text *and do not
contain the `"__CLEAR__"` sentinel*, the item's score decreases by exactly 1 per
call — also on calls with no incoming items — and the item is removed exactly at
the call where its score reaches 0 (after `k` calls the score is `s - k` while
`k < s`, and the item is gone as soon as `s ≤ k`). -/
theorem C8_theorem : ∀ (ins : List (List String)) (old : List ScoredItem) (t : String) (s : Int),
    matchCount old t = 1 → scoreOf old t = some s → 1 ≤ s →
    (∀ l ∈ ins, "__CLEAR__" ∉ l ∧ ∀ x ∈ l, lowerStr x ≠ lowerStr t) →
    (((ins.length : Int) < s → scoreOf (ins.foldl decayMergeList old) t = some (s - ins.length)) ∧
     (s ≤ (ins.length : Int) → scoreOf (ins.foldl decayMergeList old) t = none)) := by
  intro ins
  induction ins with
  | nil =>
    intro old t s h1 h2 h3 _
    constructor
    · intro _
      simpa using h2
    · intro hle
      simp at hle
      omega
  | cons l ins ih =>
    intro old t s h1 h2 h3 hins
    have hl := hins l (List.mem_cons_self l ins)
    have hrest : ∀ l2 ∈ ins, "__CLEAR__" ∉ l2 ∧ ∀ x ∈ l2, lowerStr x ≠ lowerStr t :=
      fun l2 hl2 => hins l2 (List.mem_cons_of_mem l hl2)
    rw [List.foldl_cons]
    by_cases hs : 1 < s
    · have hstep := (decayMerge_unique h1 h2 hl.1 hl.2).1 hs
      have hrec := ih (decayMergeList old l) t (s - 1) hstep.2 hstep.1 (by omega) hrest
      constructor
      · intro hlt
        rw [hrec.1 (by simp at hlt ⊢; omega)]
        congr 1
        simp
        omega
      · intro hle
        exact hrec.2 (by simp at hle ⊢; omega)
    · have hs1 : s ≤ 1 := by omega
      have hstep := (decayMerge_unique h1 h2 hl.1 hl.2).2 hs1
      have hz := foldl_decayMerge_zero ins (decayMergeList old l) hstep.2 hrest
      constructor
      · intro hlt
        simp at hlt
        omega
      · intro _
        exact hz.1

/-- C8 counterexample to the claim as stated: one update call whose incoming
list is `["__CLEAR__"]` — which contains no case-insensitive match for the
item's text — removes a score-3 item outright instead of decrementing it to 2,
because the sentinel empties the whole list. -/
theorem C8_counterexample :
    (lowerStr "__CLEAR__" ≠ lowerStr "brca1 risk") ∧
    decayMergeList [⟨"brca1 risk", 3⟩] ["__CLEAR__"] = [] ∧
    scoreOf (decayMergeList [⟨"brca1 risk", 3⟩] ["__CLEAR__"]) "brca1 risk" = none := by
  decide

/-- Witness for C8: a concrete item of score 3 surviving two clean update calls
(one with no incoming items, one with a non-matching item) at score 1. -/
theorem C8_witness :
    (matchCount [⟨"brca1 risk", 3⟩] "brca1 risk" = 1) ∧
    (scoreOf [⟨"brca1 risk", 3⟩] "brca1 risk" = some 3) ∧
    scoreOf (([[], ["other fact"]] : List (List String)).foldl decayMergeList
      [⟨"brca1 risk", 3⟩]) "brca1 risk" = some 1 := by
  refine ⟨by decide, by decide, ?_⟩
  have := ( C8_theorem [[], ["other fact"]] [⟨"brca1 risk", 3⟩] "brca1 risk" 3
    (by decide) (by decide) (by decide) (by decide)).1 (by decide)
  simpa using this

/-- C1 (amended): the two evidence aggregators and the broad-science builder
always produce bundles with exactly the six required keys (whenever they return
a bundle at all), but the general-question early exit's bundle has exactly the
four keys `omim, ncbi, pubmed, clinvar` — `genereviews` and `gnomad` are absent
there. -/
theorem C1_theorem :
    (∀ (cl : Clients) (g : String) (oid nid : Option String) (ev : Evidence),
        buildEvidenceForGeneQuestion cl g oid nid = .ok ev → evidenceKeys ev = sixRequiredKeys) ∧
    (∀ (cl : Clients) (g v : String) (oid nid : Option String) (ev : Evidence),
        buildEvidenceForVariantQuestion cl g v oid nid = .ok ev → evidenceKeys ev = sixRequiredKeys) ∧
    (∀ (cl : Clients) (q : String), evidenceKeys (buildBroadScienceEvidence cl q) = sixRequiredKeys) ∧
    evidenceKeys generalChatEvidence = ["omim", "ncbi", "pubmed", "clinvar"] := by
  refine ⟨?_, ?_, ?_, rfl⟩
  · intro cl g oid nid ev h
    simp only [buildEvidenceForGeneQuestion] at h
    split at h
    · injection h with h; subst h; rfl
    · cases h1 : cl.omim (pyStrip g) oid with
      | error e => simp only [h1] at h; exact Except.noConfusion h
      | ok b1 =>
      simp only [h1] at h
      cases h2 : cl.ncbi (pyStrip g) nid with
      | error e => simp only [h2] at h; exact Except.noConfusion h
      | ok b2 =>
      simp only [h2] at h
      cases h3 : cl.pubmed (pyStrip g) with
      | error e => simp only [h3] at h; exact Except.noConfusion h
      | ok b3 =>
      simp only [h3] at h
      cases h4 : cl.genereviews (pyStrip g) with
      | error e => simp only [h4] at h; exact Except.noConfusion h
      | ok b4 =>
      simp only [h4] at h
      cases h5 : cl.gnomad (pyStrip g) with
      | error e => simp only [h5] at h; exact Except.noConfusion h
      | ok b5 =>
      simp only [h5] at h
      injection h with h; subst h; rfl
  · intro cl g v oid nid ev h
    simp only [buildEvidenceForVariantQuestion] at h
    split at h
    · injection h with h; subst h; rfl
    · cases h1 : cl.omim (pyStrip g) oid with
      | error e => simp only [h1] at h; exact Except.noConfusion h
      | ok b1 =>
      simp only [h1] at h
      cases h2 : cl.ncbi (pyStrip g) nid with
      | error e => simp only [h2] at h; exact Except.noConfusion h
      | ok b2 =>
      simp only [h2] at h
      cases h3 : cl.pubmed (pyStrip g) with
      | error e => simp only [h3] at h; exact Except.noConfusion h
      | ok b3 =>
      simp only [h3] at h
      cases h4 : cl.genereviews (pyStrip g) with
      | error e => simp only [h4] at h; exact Except.noConfusion h
      | ok b4 =>
      simp only [h4] at h
      cases h5 : cl.gnomad (pyStrip g) with
      | error e => simp only [h5] at h; exact Except.noConfusion h
      | ok b5 =>
      simp only [h5] at h
      cases h6 : cl.clinvar (pyStrip g) (pyStrip v) with
      | error e => simp only [h6] at h; exact Except.noConfusion h
      | ok b6 =>
      simp only [h6] at h
      injection h with h; subst h; rfl
  · intro cl q
    unfold buildBroadScienceEvidence
    split <;> rfl

/-- The bundle `build_evidence_for_gene_question` produces under `okClients`. -/
def okGeneEvidence : Evidence :=
  [("omim", unusedBox "no data"), ("ncbi", unusedBox "no data"),
   ("pubmed", { used := true, reason := none }), ("clinvar", clinvarGeneStub),
   ("genereviews", unusedBox "no data"), ("gnomad", unusedBox "no data")]

/-- Witness for C1: a concrete successful aggregator call yields the six keys. -/
theorem C1_witness :
    buildEvidenceForGeneQuestion okClients "BRCA1" none none = .ok okGeneEvidence ∧
    evidenceKeys okGeneEvidence = sixRequiredKeys := by
  refine ⟨by rfl, C1_theorem.1 okClients "BRCA1" none none okGeneEvidence (by rfl)⟩

/-- C1 counterexample to the claim as stated: the pipeline invocation on `"hi"`
(the general-question early exit) returns an answer record whose evidence bundle
has only four keys; `genereviews` and `gnomad` are missing. -/
theorem C1_counterexample :
    runPipeline okClients "hi" none =
      .ok (.record { question_type := "general", evidence := generalChatEvidence,
                     gene_symbol := none, intent := forcedGeneralIntent "hi",
                     clinical_state := none }, none) ∧
    evidenceKeys generalChatEvidence = ["omim", "ncbi", "pubmed", "clinvar"] ∧
    ((evidenceKeys generalChatEvidence).contains "genereviews" = false) ∧
    ((evidenceKeys generalChatEvidence).contains "gnomad" = false) := by
  refine ⟨by rfl, by rfl, by rfl, by rfl⟩

/-- C2 counterexample to the claim as stated: when the OMIM collaborator raises,
the aggregator returns that error — the exception propagates instead of being
downgraded to a `used: False` record. -/
theorem C2_counterexample :
    buildEvidenceForGeneQuestion raisingOmimClients "BRCA1" none none = .error "omim boom" := by
  rfl

/-- C2 (amended): the aggregator performs no wrapping of the collaborator calls;
if a collaborator (here OMIM, the first call) raises during the fan-out, the
exception propagates out of the evidence-aggregation function to its caller.
(Graceful degradation lives inside the individual clients, which convert their
own failures to `used: False` records; the only pipeline-wrapped call is the
broad-science PubMed call.) -/
theorem C2_theorem : ∀ (cl : Clients) (g : String) (oid nid : Option String) (e : String),
    pyStrip g ≠ "" →
    cl.omim (pyStrip g) oid = .error e →
    buildEvidenceForGeneQuestion cl g oid nid = .error e := by
  intro cl g oid nid e h1 h2
  simp only [buildEvidenceForGeneQuestion]
  rw [if_neg h1, h2]

/-- Witness for C2: a concrete raising OMIM collaborator propagates its error. -/
theorem C2_witness :
    (pyStrip "BRCA1" ≠ "") ∧
    raisingOmimClients.omim (pyStrip "BRCA1") none = .error "omim boom" ∧
    buildEvidenceForGeneQuestion raisingOmimClients "BRCA1" none none = .error "omim boom" := by
  refine ⟨by decide, by rfl,
    C2_theorem raisingOmimClients "BRCA1" none none "omim boom" (by decide) (by rfl)⟩

lemma charsStartWith_self_append : ∀ (n suf : List Char), charsStartWith (n ++ suf) n = true := by
  intro n
  induction n with
  | nil => intro suf; cases suf <;> rfl
  | cons c t ih =>
    intro suf
    simp only [List.cons_append, charsStartWith, List.append_eq, beq_self_eq_true, Bool.true_and]
    exact ih suf

lemma charsContain_needle_nil : ∀ (l : List Char), charsContain l [] = true := by
  intro l
  cases l with
  | nil => rfl
  | cons c t => simp [charsContain, charsStartWith]

lemma charsContain_self_append : ∀ (n suf : List Char), charsContain (n ++ suf) n = true := by
  intro n suf
  cases n with
  | nil => exact charsContain_needle_nil suf
  | cons c t =>
    have h := charsStartWith_self_append (c :: t) suf
    simp only [List.cons_append] at h
    simp only [List.cons_append, charsContain, List.append_eq]
    rw [h]
    simp

lemma charsContain_append_left : ∀ (l m n : List Char),
    charsContain m n = true → charsContain (l ++ m) n = true := by
  intro l
  induction l with
  | nil => intro m n h; exact h
  | cons c t ih =>
    intro m n h
    simp only [List.cons_append, charsContain, List.append_eq]
    have := ih m n h
    simp only [List.append_eq] at this
    rw [this]
    simp

/-- C6: for every session with a (truthy) stored gene and every question that
contains a vague-reference indicator as a whole word but does not literally
contain the gene (case-insensitively), the pipeline detects a follow-up and its
rewritten question — the text handed to intent classification — contains the
gene symbol. -/
theorem C6_theorem : ∀ (q : String) (st : ClinicalState) (g : String),
    st.current_gene = some g → g ≠ "" →
    followUpIndicators.any (fun ind => containsWord (lowerStr q) ind) = true →
    containsSub (upperStr q) (upperStr g) = false →
    isFollowUpQuestion q st = true ∧
    containsSub (pipelineRewrittenQuestion q st) g = true := by
  intro q st g h1 hg hind hnc
  have hfu : isFollowUpQuestion q st = true := by
    unfold isFollowUpQuestion
    simp only [h1]
    rw [if_neg hg]
    exact hind
  refine ⟨hfu, ?_⟩
  have htr : optTruthy st.current_gene = true := by
    rw [h1]
    simpa [optTruthy] using hg
  have base : ∀ (a b : String), containsSub (a ++ g ++ b) g = true := by
    intro a b
    simp only [containsSub, String.data_append, List.append_assoc]
    exact charsContain_append_left _ _ _ (charsContain_self_append _ _)
  have base2 : ∀ (a b1 v2 b2 : String), containsSub (a ++ g ++ b1 ++ v2 ++ b2) g = true := by
    intro a b1 v2 b2
    simp only [containsSub, String.data_append, List.append_assoc]
    exact charsContain_append_left _ _ _ (charsContain_self_append _ _)
  unfold pipelineRewrittenQuestion
  rw [hfu, htr]
  simp only [Bool.and_self, if_true]
  unfold injectContext
  simp only [h1]
  rw [if_neg hg, hnc]
  simp only [Bool.false_eq_true, if_false]
  split
  · split
    · exact base (q ++ " (regarding ") ")"
    · exact base2 (q ++ " (regarding ") " " _ ")"
  · exact base (q ++ " (regarding ") ")"

/-- Witness for C6: the spec's scenario — `current_gene = "PTEN"`, question
`"What about my children?"` — yields a rewrite containing `"PTEN"`. -/
theorem C6_witness :
    ({ createDefaultState with current_gene := some "PTEN" } : ClinicalState).current_gene = some "PTEN" ∧
    ("PTEN" ≠ "") ∧
    (followUpIndicators.any (fun ind => containsWord (lowerStr "What about my children?") ind) = true) ∧
    (containsSub (upperStr "What about my children?") (upperStr "PTEN") = false) ∧
    containsSub
      (pipelineRewrittenQuestion "What about my children?"
        { createDefaultState with current_gene := some "PTEN" }) "PTEN" = true := by
  refine ⟨rfl, by decide, by decide, by decide,
    ( C6_theorem "What about my children?" { createDefaultState with current_gene := some "PTEN" }
      "PTEN" rfl (by decide) (by decide) (by decide)).2⟩

/-- C7: if the loaded session state has no `current_gene`, the intent that
survives the upgrade passes and hallucination guard carries no gene symbol, and
the question matches an ambiguous-phrasing pattern, the pipeline short-circuits
with the clarification response — for any clients and any session contents. -/
theorem C7_theorem : ∀ (cl : Clients) (st : ClinicalState) (q : String),
    st.current_gene = none →
    (processedIntent q).gene_symbol = none →
    ambiguousPhrases.any (fun p => containsSub (lowerStr q) p) = true →
    ∃ stored, runPipeline cl q (some st) =
      .ok (.clarification clarificationMessage (processedIntent q), some stored) := by
  intro cl st q h1 h2 h3
  have hfu : isFollowUpQuestion q st = false := by
    unfold isFollowUpQuestion
    simp only [h1]
  have hrw : pipelineRewrittenQuestion q st = q := by
    unfold pipelineRewrittenQuestion
    rw [hfu]
    simp
  have hgate : ∀ (stored : Option ClinicalState),
      pipelineAfterIntent cl q (processedIntent q) none stored =
        .ok (.clarification clarificationMessage (processedIntent q), stored) := by
    intro stored
    unfold pipelineAfterIntent
    rw [h2, h3]
    simp [optTruthy]
  have hstart : runPipeline cl q (some st) =
      pipelineAfterIntent cl (pipelineRewrittenQuestion q st)
        (processedIntent (pipelineRewrittenQuestion q st))
        (guardStoredState
          (contextResetNeeded (classifyIntent (pipelineRewrittenQuestion q st))
            st.current_gene (isFollowUpQuestion q st)) (some st) st).1.current_gene
        (guardStoredState
          (contextResetNeeded (classifyIntent (pipelineRewrittenQuestion q st))
            st.current_gene (isFollowUpQuestion q st)) (some st) st).2 := rfl
  rw [hrw, hfu, h1] at hstart
  by_cases hb : contextResetNeeded (classifyIntent q) none false = true
  · rw [hb] at hstart
    have hg1 : (guardStoredState true (some st) st).1.current_gene = none := rfl
    have hg2 : (guardStoredState true (some st) st).2 =
        some (updateClinicalState st resetUpdates) := rfl
    rw [hg1, hg2] at hstart
    exact ⟨updateClinicalState st resetUpdates, hstart.trans (hgate _)⟩
  · rw [Bool.not_eq_true] at hb
    rw [hb] at hstart
    have hg1 : (guardStoredState false (some st) st).1.current_gene = st.current_gene := rfl
    have hg2 : (guardStoredState false (some st) st).2 = some st := rfl
    rw [hg1, h1, hg2] at hstart
    exact ⟨st, hstart.trans (hgate _)⟩

/-- Witness for C7: the spec's scenario — `"Is it dangerous?"` with empty
session state — yields the clarification response. -/
theorem C7_witness :
    (createDefaultState.current_gene = none) ∧
    ((processedIntent "Is it dangerous?").gene_symbol = none) ∧
    (ambiguousPhrases.any (fun p => containsSub (lowerStr "Is it dangerous?") p) = true) ∧
    ∃ stored, runPipeline okClients "Is it dangerous?" (some createDefaultState) =
      .ok (.clarification clarificationMessage (processedIntent "Is it dangerous?"), some stored) := by
  refine ⟨rfl, by decide, by decide,
    C7_theorem okClients createDefaultState "Is it dangerous?" rfl (by decide) (by decide)⟩

/-- On `"tell me about heart diseases"` with no session, the pipeline prefix
(no follow-up, no reset store, intent unchanged by the upgrade passes) reduces
to the post-intent stage. -/
lemma c5_start (cl : Clients) :
    runPipeline cl "tell me about heart diseases" none =
      pipelineAfterIntent cl "tell me about heart diseases"
        (classifyIntent "tell me about heart diseases") none none := rfl

/-- The post-intent stage on `"tell me about heart diseases"` takes the
gene-evidence path with gene symbol `"DISEASES"` (the parser's surviving
candidate token), for any clients. -/
lemma afterIntent_heart (cl : Clients) :
    pipelineAfterIntent cl "tell me about heart diseases"
        (classifyIntent "tell me about heart diseases") none none =
      match buildEvidenceForGeneQuestion cl "DISEASES" (cl.mim2gene "DISEASES")
        (cl.ncbiGeneIdLookup "DISEASES") with
      | .error e => .error e
      | .ok ev =>
        .ok (.record { question_type := "gene", evidence := ev,
                       gene_symbol := some "DISEASES",
                       intent := classifyIntent "tell me about heart diseases",
                       clinical_state := none },
             none) := by rfl

/-- The gene aggregator's bundle when all five collaborator calls succeed. -/
lemma buildGene_ok (cl : Clients) (g : String) (oid nid : Option String)
    (b1 b2 b3 b4 b5 : SrcBox)
    (hne : pyStrip g ≠ "")
    (h1 : cl.omim (pyStrip g) oid = .ok b1)
    (h2 : cl.ncbi (pyStrip g) nid = .ok b2)
    (h3 : cl.pubmed (pyStrip g) = .ok b3)
    (h4 : cl.genereviews (pyStrip g) = .ok b4)
    (h5 : cl.gnomad (pyStrip g) = .ok b5) :
    buildEvidenceForGeneQuestion cl g oid nid =
      .ok [("omim", b1), ("ncbi", b2), ("pubmed", b3), ("clinvar", clinvarGeneStub),
           ("genereviews", b4), ("gnomad", b5)] := by
  simp only [buildEvidenceForGeneQuestion]
  rw [if_neg hne, h1, h2, h3, h4, h5]

/-- C5 (amended): on input `"tell me about heart diseases"` the intent stays
`disease_question` (the broad-science upgrade needs the word "genes"), and the
pipeline — having extracted `"DISEASES"` as a candidate gene — takes the
gene-evidence path: `clinvar` is the guaranteed-unused gene-level stub, while
the OMIM/NCBI/PubMed/GeneReviews/gnomAD boxes are whatever the clients return
for the pseudo-gene `"DISEASES"`. -/
theorem C5_theorem : ∀ (cl : Clients) (b1 b2 b3 b4 b5 : SrcBox),
    cl.omim "DISEASES" (cl.mim2gene "DISEASES") = .ok b1 →
    cl.ncbi "DISEASES" (cl.ncbiGeneIdLookup "DISEASES") = .ok b2 →
    cl.pubmed "DISEASES" = .ok b3 →
    cl.genereviews "DISEASES" = .ok b4 →
    cl.gnomad "DISEASES" = .ok b5 →
    runPipeline cl "tell me about heart diseases" none =
      .ok (.record { question_type := "gene",
                     evidence := [("omim", b1), ("ncbi", b2), ("pubmed", b3),
                                  ("clinvar", clinvarGeneStub), ("genereviews", b4),
                                  ("gnomad", b5)],
                     gene_symbol := some "DISEASES",
                     intent := classifyIntent "tell me about heart diseases",
                     clinical_state := none },
           none) ∧
    (classifyIntent "tell me about heart diseases").intent = "disease_question" ∧
    clinvarGeneStub.used = false := by
  intro cl b1 b2 b3 b4 b5 h1 h2 h3 h4 h5
  have hstrip : pyStrip "DISEASES" = "DISEASES" := by decide
  refine ⟨?_, by decide, rfl⟩
  rw [c5_start cl, afterIntent_heart cl,
      buildGene_ok cl "DISEASES" (cl.mim2gene "DISEASES") (cl.ncbiGeneIdLookup "DISEASES")
        b1 b2 b3 b4 b5 (by decide) (by rw [hstrip]; exact h1) (by rw [hstrip]; exact h2)
        (by rw [hstrip]; exact h3) (by rw [hstrip]; exact h4) (by rw [hstrip]; exact h5)]

/-- C5 counterexample to the claim as stated: with a clients record whose OMIM
call reports `used = True`, the returned record for
`"tell me about heart diseases"` has `omim.used = True` and its intent is
`disease_question`, not `broad_science_question` — refuting both the claimed
intent upgrade and the claimed guaranteed `omim.used=False`. -/
theorem C5_counterexample :
    resultIntentLabel (runPipeline omimUsedClients "tell me about heart diseases" none) =
      some "disease_question" ∧
    ("disease_question" ≠ "broad_science_question") ∧
    resultBoxUsed "omim" (runPipeline omimUsedClients "tell me about heart diseases" none) =
      some true := by
  refine ⟨by rfl, by decide, by rfl⟩

/-- Witness for C5: concrete clients instantiating the amended theorem. -/
theorem C5_witness :
    (okClients.omim "DISEASES" (okClients.mim2gene "DISEASES") = .ok (unusedBox "no data")) ∧
    runPipeline okClients "tell me about heart diseases" none =
      .ok (.record { question_type := "gene",
                     evidence := [("omim", unusedBox "no data"), ("ncbi", unusedBox "no data"),
                                  ("pubmed", { used := true, reason := none }),
                                  ("clinvar", clinvarGeneStub),
                                  ("genereviews", unusedBox "no data"),
                                  ("gnomad", unusedBox "no data")],
                     gene_symbol := some "DISEASES",
                     intent := classifyIntent "tell me about heart diseases",
                     clinical_state := none },
           none) := by
  refine ⟨by rfl, ( C5_theorem okClients (unusedBox "no data") (unusedBox "no data")
    { used := true, reason := none } (unusedBox "no data") (unusedBox "no data")
    (by rfl) (by rfl) (by rfl) (by rfl) (by rfl)).1⟩

/-- The post-intent stage on `"What is TP53?"` with a cleared session gene takes
the gene-evidence path for `"TP53"` and ends by writing the final state update. -/
lemma afterIntent_tp53 (cl : Clients) (stMid : ClinicalState) :
    pipelineAfterIntent cl "What is TP53?" (classifyIntent "What is TP53?") none (some stMid) =
      match buildEvidenceForGeneQuestion cl "TP53" (some "191170") (cl.ncbiGeneIdLookup "TP53") with
      | .error e => .error e
      | .ok ev =>
        .ok (.record { question_type := "gene", evidence := ev,
                       gene_symbol := some "TP53",
                       intent := classifyIntent "What is TP53?",
                       clinical_state := some (updateClinicalState stMid
                         (updatesFromAnswer (classifyIntent "What is TP53?") (some "TP53") none)) },
             some (updateClinicalState stMid
               (updatesFromAnswer (classifyIntent "What is TP53?") (some "TP53") none))) := by rfl

/-- C4: (a) whenever the stored gene is truthy and the classified intent carries
a different truthy gene symbol on a non-follow-up turn, the context guard fires
and the reset update clears `current_gene`, `current_variant`,
`variant_classification` and `test_context` — this is the state the evidence
fetch then runs under; (b) end to end on `"What is TP53?"`: for every session
whose stored gene differs from TP53 (arbitrary stored variant, classification
and test context) and all succeeding clients, the post-call state holds
`current_gene = "TP53"` with the other three fields cleared — no leakage. -/
theorem C4_theorem :
    (∀ (st : ClinicalState) (intent : Intent) (g0 g1 : String),
        st.current_gene = some g0 → g0 ≠ "" → intent.gene_symbol = some g1 → g1 ≠ "" →
        upperStr g1 ≠ upperStr g0 →
        contextResetNeeded intent (some g0) false = true ∧
        (updateClinicalState st resetUpdates).current_gene = none ∧
        (updateClinicalState st resetUpdates).current_variant = none ∧
        (updateClinicalState st resetUpdates).variant_classification = none ∧
        (updateClinicalState st resetUpdates).test_context = none) ∧
    (∀ (cl : Clients) (st : ClinicalState) (g0 : String) (b1 b2 b3 b4 b5 : SrcBox),
        st.current_gene = some g0 → g0 ≠ "" → upperStr g0 ≠ "TP53" →
        cl.omim "TP53" (some "191170") = .ok b1 →
        cl.ncbi "TP53" (cl.ncbiGeneIdLookup "TP53") = .ok b2 →
        cl.pubmed "TP53" = .ok b3 →
        cl.genereviews "TP53" = .ok b4 →
        cl.gnomad "TP53" = .ok b5 →
        ∃ fs : ClinicalState,
          runPipeline cl "What is TP53?" (some st) =
            .ok (.record { question_type := "gene",
                           evidence := [("omim", b1), ("ncbi", b2), ("pubmed", b3),
                                        ("clinvar", clinvarGeneStub), ("genereviews", b4),
                                        ("gnomad", b5)],
                           gene_symbol := some "TP53",
                           intent := classifyIntent "What is TP53?",
                           clinical_state := some fs },
                 some fs) ∧
          fs.current_gene = some "TP53" ∧
          fs.current_variant = none ∧
          fs.variant_classification = none ∧
          fs.test_context = none) := by
  have partA : ∀ (st : ClinicalState) (intent : Intent) (g0 g1 : String),
      st.current_gene = some g0 → g0 ≠ "" → intent.gene_symbol = some g1 → g1 ≠ "" →
      upperStr g1 ≠ upperStr g0 →
      contextResetNeeded intent (some g0) false = true ∧
      (updateClinicalState st resetUpdates).current_gene = none ∧
      (updateClinicalState st resetUpdates).current_variant = none ∧
      (updateClinicalState st resetUpdates).variant_classification = none ∧
      (updateClinicalState st resetUpdates).test_context = none := by
    intro st intent g0 g1 _ hg0 hgs hg1 hup
    refine ⟨?_, rfl, rfl, rfl, rfl⟩
    unfold contextResetNeeded
    rw [hgs]
    simp only [bne_iff_ne, ne_eq, Bool.not_false, Bool.and_true, decide_not]
    have : (g1 = "") = False := by simp [hg1]
    simp [hg1, hg0, hup]
  refine ⟨partA, ?_⟩
  intro cl st g0 b1 b2 b3 b4 b5 h1 hg0 hup ho hn hp hgr hgn
  have hfu : isFollowUpQuestion "What is TP53?" st = false := by
    unfold isFollowUpQuestion
    simp only [h1]
    rw [if_neg hg0]
    decide
  have hrw : pipelineRewrittenQuestion "What is TP53?" st = "What is TP53?" := by
    unfold pipelineRewrittenQuestion
    rw [hfu]
    simp
  have hup2 : upperStr "TP53" ≠ upperStr g0 := by
    have : upperStr "TP53" = "TP53" := by decide
    rw [this]
    exact fun hcontra => hup hcontra.symm
  have hneed : contextResetNeeded (classifyIntent "What is TP53?") (some g0) false = true :=
    (partA st (classifyIntent "What is TP53?") g0 "TP53" h1 hg0 (by decide) (by decide) hup2).1
  have hproc : processedIntent "What is TP53?" = classifyIntent "What is TP53?" := by decide
  have hstart : runPipeline cl "What is TP53?" (some st) =
      pipelineAfterIntent cl (pipelineRewrittenQuestion "What is TP53?" st)
        (processedIntent (pipelineRewrittenQuestion "What is TP53?" st))
        (guardStoredState
          (contextResetNeeded (classifyIntent (pipelineRewrittenQuestion "What is TP53?" st))
            st.current_gene (isFollowUpQuestion "What is TP53?" st)) (some st) st).1.current_gene
        (guardStoredState
          (contextResetNeeded (classifyIntent (pipelineRewrittenQuestion "What is TP53?" st))
            st.current_gene (isFollowUpQuestion "What is TP53?" st)) (some st) st).2 := rfl
  rw [hrw, hfu, h1, hneed, hproc] at hstart
  have hg1 : (guardStoredState true (some st) st).1.current_gene = none := rfl
  have hg2 : (guardStoredState true (some st) st).2 =
      some (updateClinicalState st resetUpdates) := rfl
  rw [hg1, hg2] at hstart
  refine ⟨updateClinicalState (updateClinicalState st resetUpdates)
    (updatesFromAnswer (classifyIntent "What is TP53?") (some "TP53") none), ?_, rfl, rfl, rfl, rfl⟩
  rw [hstart, afterIntent_tp53 cl (updateClinicalState st resetUpdates),
      buildGene_ok cl "TP53" (some "191170") (cl.ncbiGeneIdLookup "TP53") b1 b2 b3 b4 b5
        (by decide) (by rw [show pyStrip "TP53" = "TP53" from by decide]; exact ho)
        (by rw [show pyStrip "TP53" = "TP53" from by decide]; exact hn)
        (by rw [show pyStrip "TP53" = "TP53" from by decide]; exact hp)
        (by rw [show pyStrip "TP53" = "TP53" from by decide]; exact hgr)
        (by rw [show pyStrip "TP53" = "TP53" from by decide]; exact hgn)]


/-- A session state carrying BRCA1-specific context, used to witness C4. -/
def brca1DirtyState : ClinicalState :=
  { createDefaultState with
    current_gene := some "BRCA1"
    current_variant := some "c.68_69delAG"
    variant_classification := some "pathogenic"
    test_context := some "germline" }

/-- Witness for C4: the spec's scenario (BRCA1-flavoured session, TP53
question) evaluated at concrete clients. -/
theorem C4_witness :
    ∃ fs : ClinicalState,
      runPipeline okClients "What is TP53?" (some brca1DirtyState) =
        .ok (.record { question_type := "gene",
                       evidence := [("omim", unusedBox "no data"), ("ncbi", unusedBox "no data"),
                                    ("pubmed", { used := true, reason := none }),
                                    ("clinvar", clinvarGeneStub),
                                    ("genereviews", unusedBox "no data"),
                                    ("gnomad", unusedBox "no data")],
                       gene_symbol := some "TP53",
                       intent := classifyIntent "What is TP53?",
                       clinical_state := some fs },
             some fs) ∧
      fs.current_gene = some "TP53" ∧ fs.current_variant = none ∧
      fs.variant_classification = none ∧ fs.test_context = none :=
  C4_theorem.2 okClients brca1DirtyState "BRCA1" (unusedBox "no data") (unusedBox "no data")
    { used := true, reason := none } (unusedBox "no data") (unusedBox "no data")
    rfl (by decide) (by decide) (by rfl) (by rfl) (by rfl) (by rfl) (by rfl)
